import Mathlib

/-!
Verification development for the Luma tree-walking interpreter
(lexer, parser, evaluator, module loader).

The definitions below are a shallow embedding of the C++ sources:
  - token kinds and the lexer        (src/src/environment.hpp, token header)
  - AST and the recursive-descent parser (src/src/ast.hpp, src/src/parser.cpp)
  - runtime values, environments and the evaluator (src/src/value.hpp,
    src/src/environment.hpp, src/src/interpreter.cpp)
  - the module loader               (src/src/interpreter.cpp)

Modelling conventions:
  - C++ `double` is modelled as `ℚ`; the source only compares, adds,
    multiplies and truncates numbers in the fragments proved about, and all
    witness inputs are exactly representable, so no floating-point rounding
    is observable in any statement below.
  - `static_cast<int>(double)` / `static_cast<int64_t>(double)` truncate
    toward zero; this is `qtrunc` below.
  - shared_ptr-heap objects (environments, lists, maps, functions, classes,
    instances, natives) live in append-only heaps inside `State`; a `Nat`
    index plays the role of the pointer, so pointer identity is index
    equality.
  - C++ exceptions (`std::runtime_error`, the interpreter's `ReturnSignal`)
    become the `Exc` outcomes threaded by `Res`; general recursion is made
    total with a fuel parameter whose exhaustion is the distinct outcome
    `Exc.fuelOut` (it is propagated by every construct and caught by none,
    so theorems conditioned on non-fuel outcomes speak about the real runs).
-/

namespace Luma

/-- Token kinds, from the token header (`enum class TokenType`).  The kinds
`Or`, `And`, `Not`, `Ampersand`, `Pipe`, `ShiftLeft`, `ShiftRight` are
referenced by src/src/parser.cpp and src/src/interpreter.cpp (the token
header revision declaring them is not in the snapshot); they are included so
those files can be embedded as written. -/
inductive TokenType where
  | LeftParen | RightParen | LeftBrace | RightBrace | Comma | Dot | Semicolon
  | Colon | LeftBracket | RightBracket | At
  | Plus | Minus | Star | Slash
  | Bang | BangEqual | Equal | EqualEqual
  | Greater | GreaterEqual | Less | LessEqual
  | Swap
  | Identifier | Number | String
  | Def | Return | If | Else | While | Class | This | True | False | Nil
  | Print | Echo | Maybe | Otherwise | Until
  | Module | Use | As | Open | Closed
  | Or | And | Not | Ampersand | Pipe | ShiftLeft | ShiftRight
  | Eof
deriving DecidableEq, Repr

/-- `struct Token { TokenType type; std::string lexeme; int line; }`. -/
structure Token where
  type : TokenType
  lexeme : String
  line : Nat
deriving DecidableEq, Repr

instance : Inhabited Token := ⟨⟨.Eof, "", 0⟩⟩

/-- The fixed keyword table `kKeywords` of src/src/environment.hpp
(lines 62-72), entry for entry, duplicates included (an
`std::unordered_map` initializer keeps the first occurrence of a key;
association-list lookup below does the same). -/
def kKeywords : List (String × TokenType) :=
  [("def", .Def), ("return", .Return),
   ("if", .If), ("else", .Else),
   ("while", .While), ("true", .True),
   ("false", .False), ("nil", .Nil),
   ("print", .Print), ("echo", .Echo),
   ("maybe", .Maybe), ("otherwise", .Otherwise),
   ("maybe", .Maybe), ("otherwise", .Otherwise),
   ("until", .Until), ("class", .Class),
   ("this", .This)]

/-- First-match association-list lookup (`std::map::find` behaviour for the
tables modelled as lists). -/
def assocGet {α : Type} (l : List (String × α)) (k : String) : Option α :=
  match l with
  | [] => none
  | (k', v) :: rest => if k' = k then some v else assocGet rest k

/-- Insert-or-overwrite (`values_[name] = value`): replaces the first
binding of `k`, otherwise appends. -/
def assocSet {α : Type} (l : List (String × α)) (k : String) (v : α) :
    List (String × α) :=
  match l with
  | [] => [(k, v)]
  | (k', v') :: rest =>
      if k' = k then (k, v) :: rest else (k', v') :: assocSet rest k v

/-- Erase the first binding of `k` (`std::map::erase`). -/
def assocErase {α : Type} (l : List (String × α)) (k : String) :
    List (String × α) :=
  match l with
  | [] => []
  | (k', v') :: rest =>
      if k' = k then rest else (k', v') :: assocErase rest k

/-- `Lexer::isAlpha`. -/
def lxIsAlpha (c : Char) : Bool :=
  (('a' ≤ c && c ≤ 'z') || ('A' ≤ c && c ≤ 'Z') || c = '_')

/-- `Lexer::isDigit`. -/
def lxIsDigit (c : Char) : Bool := ('0' ≤ c && c ≤ '9')

/-- `Lexer::isAlphaNumeric`. -/
def lxIsAlphaNumeric (c : Char) : Bool := lxIsAlpha c || lxIsDigit c

/-- `Lexer::identifierOrKeyword`, classification step: the greedily consumed
alnum/underscore lexeme `text` becomes a keyword token exactly when `text`
is in `kKeywords`, otherwise an `Identifier` token. -/
def identifierOrKeyword (text : String) (line : Nat) : Token :=
  match assocGet kKeywords text with
  | some t => ⟨t, text, line⟩
  | none => ⟨.Identifier, text, line⟩

/-- One maximal run of alnum/underscore characters
(`while (isAlphaNumeric(peek())) advance();`). -/
def lxTakeIdent (cs : List Char) : List Char × List Char :=
  match cs with
  | [] => ([], [])
  | c :: rest =>
      if lxIsAlphaNumeric c then
        let (tk, rst) := lxTakeIdent rest
        (c :: tk, rst)
      else ([], c :: rest)

/-- One maximal run of digits (`while (isDigit(peek())) advance();`). -/
def lxTakeDigits (cs : List Char) : List Char × List Char :=
  match cs with
  | [] => ([], [])
  | c :: rest =>
      if lxIsDigit c then
        let (tk, rst) := lxTakeDigits rest
        (c :: tk, rst)
      else ([], c :: rest)

/-- The string-literal body scan: consume up to (not including) the closing
quote, counting newlines (`Lexer::stringLiteral`'s while loop). -/
def lxTakeString (cs : List Char) : List Char × List Char :=
  match cs with
  | [] => ([], [])
  | c :: rest =>
      if c = '"' then ([], c :: rest)
      else
        let (tk, rst) := lxTakeString rest
        (c :: tk, rst)

/-- `// comment`: skip to end of line, leaving the newline itself. -/
def lxSkipComment (cs : List Char) : List Char :=
  match cs with
  | [] => []
  | c :: rest => if c = '\n' then c :: rest else lxSkipComment rest

/-- The lexer's scan loop (`Lexer::scanTokens` / `Lexer::scanToken`),
src/src/environment.hpp lines 76-261.  `fuel` only bounds the recursion;
`scanTokens` supplies enough for any input.  Errors are the thrown
`std::runtime_error` messages. -/
def lxGo (fuel : Nat) (cs : List Char) (line : Nat) (acc : List Token) :
    Except String (List Token) :=
  match fuel with
  | 0 => .error "lexer out of fuel"
  | fuel + 1 =>
    match cs with
    | [] => .ok (acc ++ [⟨.Eof, "", line⟩])
    | c :: rest =>
      if c = '(' then lxGo fuel rest line (acc ++ [⟨.LeftParen, "(", line⟩])
      else if c = ')' then lxGo fuel rest line (acc ++ [⟨.RightParen, ")", line⟩])
      else if c = '\x7b' then lxGo fuel rest line (acc ++ [⟨.LeftBrace, "\x7b", line⟩])
      else if c = '\x7d' then lxGo fuel rest line (acc ++ [⟨.RightBrace, "\x7d", line⟩])
      else if c = ',' then lxGo fuel rest line (acc ++ [⟨.Comma, ",", line⟩])
      else if c = '.' then lxGo fuel rest line (acc ++ [⟨.Dot, ".", line⟩])
      else if c = ';' then lxGo fuel rest line (acc ++ [⟨.Semicolon, ";", line⟩])
      else if c = ':' then lxGo fuel rest line (acc ++ [⟨.Colon, ":", line⟩])
      else if c = '[' then lxGo fuel rest line (acc ++ [⟨.LeftBracket, "[", line⟩])
      else if c = ']' then lxGo fuel rest line (acc ++ [⟨.RightBracket, "]", line⟩])
      else if c = '+' then lxGo fuel rest line (acc ++ [⟨.Plus, "+", line⟩])
      else if c = '-' then lxGo fuel rest line (acc ++ [⟨.Minus, "-", line⟩])
      else if c = '*' then lxGo fuel rest line (acc ++ [⟨.Star, "*", line⟩])
      else if c = '!' then
        match rest with
        | '=' :: rest' => lxGo fuel rest' line (acc ++ [⟨.BangEqual, "!=", line⟩])
        | _ => lxGo fuel rest line (acc ++ [⟨.Bang, "!", line⟩])
      else if c = '=' then
        match rest with
        | '=' :: rest' => lxGo fuel rest' line (acc ++ [⟨.EqualEqual, "==", line⟩])
        | _ => lxGo fuel rest line (acc ++ [⟨.Equal, "=", line⟩])
      else if c = '<' then
        match rest with
        | '-' :: rest' =>
          match rest' with
          | '>' :: rest'' => lxGo fuel rest'' line (acc ++ [⟨.Swap, "<->", line⟩])
          | _ =>
            .error ("Unexpected \x27<-\x27 at line " ++ toString line ++
                    ", did you mean \x27<->\x27?")
        | '=' :: rest' => lxGo fuel rest' line (acc ++ [⟨.LessEqual, "<=", line⟩])
        | _ => lxGo fuel rest line (acc ++ [⟨.Less, "<", line⟩])
      else if c = '>' then
        match rest with
        | '=' :: rest' => lxGo fuel rest' line (acc ++ [⟨.GreaterEqual, ">=", line⟩])
        | _ => lxGo fuel rest line (acc ++ [⟨.Greater, ">", line⟩])
      else if c = '/' then
        match rest with
        | '/' :: rest' => lxGo fuel (lxSkipComment rest') line acc
        | _ => lxGo fuel rest line (acc ++ [⟨.Slash, "/", line⟩])
      else if c = ' ' || c = '\r' || c = '\t' then lxGo fuel rest line acc
      else if c = '\n' then lxGo fuel rest (line + 1) acc
      else if c = '"' then
        let (body, rst) := lxTakeString rest
        let line' := line + (body.filter (· = '\n')).length
        match rst with
        | [] => .error ("Unterminated string at line " ++ toString line')
        | _ :: rst' =>
            lxGo fuel rst' line'
              (acc ++ [⟨.String, String.mk ('"' :: body ++ ['"']), line'⟩])
      else if lxIsDigit c then
        let (ds, rst) := lxTakeDigits rest
        match rst with
        | '.' :: d :: rst' =>
          if lxIsDigit d then
            let (ds', rst'') := lxTakeDigits rst'
            lxGo fuel rst'' line
              (acc ++ [⟨.Number, String.mk (c :: ds ++ '.' :: d :: ds'), line⟩])
          else
            lxGo fuel ('.' :: d :: rst') line
              (acc ++ [⟨.Number, String.mk (c :: ds), line⟩])
        | _ =>
            lxGo fuel rst line (acc ++ [⟨.Number, String.mk (c :: ds), line⟩])
      else if lxIsAlpha c then
        let (tk, rst) := lxTakeIdent rest
        lxGo fuel rst line (acc ++ [identifierOrKeyword (String.mk (c :: tk)) line])
      else
        .error ("Unexpected character at line " ++ toString line ++ ": \x27" ++
                String.mk [c] ++ "\x27")

/-- `Lexer::scanTokens`: lex a whole source string (enough fuel for every
input, since each step consumes at least one character). -/
def scanTokens (source : String) : Except String (List Token) :=
  lxGo (source.length + 1) source.toList 1 []

/-! ### AST (src/src/ast.hpp, extended with the visibility and module nodes
constructed by src/src/parser.cpp and consumed by src/src/interpreter.cpp;
the ast.hpp revision declaring those fields is not in the snapshot, their
shape is read off the constructor calls in parser.cpp). -/

/-- `enum class Visibility { Open, Closed }`. -/
inductive Visibility where
  | Open | Closed
deriving DecidableEq, Repr

/-- `LiteralExpr::Kind`. -/
inductive LitKind where
  | Number | String | Bool | Nil
deriving DecidableEq, Repr

/-- `LiteralExpr` payload (kind plus the three value fields). -/
structure LiteralData where
  kind : LitKind
  numberValue : ℚ := 0
  stringValue : String := ""
  boolValue : Bool := false
deriving DecidableEq, Repr

mutual

/-- Expression nodes (`struct ... : Expr` hierarchy of src/src/ast.hpp).
A C++ `unique_ptr<BlockStmt>` body is the plain `List Stmt` of its
statements. -/
inductive Expr where
  | literal (l : LiteralData)
  | variableE (name : Token)
  | grouping (e : Expr)
  | unary (op : Token) (right : Expr)
  | binary (left : Expr) (op : Token) (right : Expr)
  | call (callee : Expr) (paren : Token) (args : List Expr)
  | listE (elements : List Expr)
  | get (object : Expr) (name : Token)
  | index (object : Expr) (bracket : Token) (idx : Expr)
  | indexSet (object : Expr) (bracket : Token) (idx : Expr) (value : Expr)
  | set (object : Expr) (name : Token) (value : Expr)
  | thisE (keyword : Token)
  | mapE (keys : List Expr) (values : List Expr)

/-- Statement nodes (`struct ... : Stmt` hierarchy).  A class method is the
(name, params, body) triple of its `FuncDefStmt`. -/
inductive Stmt where
  | exprStmt (e : Expr)
  | print (e : Expr)
  | varAssign (name : Token) (value : Expr)
  | block (statements : List Stmt)
  | ifS (condition : Expr) (thenBranch : List Stmt) (elseBranch : Option Stmt)
  | whileS (condition : Expr) (body : List Stmt)
  | untilS (condition : Expr) (body : List Stmt)
  | ret (keyword : Token) (value : Option Expr)
  | funcDef (name : Token) (params : List Token) (body : List Stmt)
      (visibility : Visibility)
  | classS (name : Token) (methods : List (Token × List Token × List Stmt))
      (visibility : Visibility)
  | echo (count : Expr) (body : List Stmt)
  | swap (left : Token) (right : Token)
  | maybe (tryBlock : List Stmt) (otherwiseBlock : Option (List Stmt))
  | moduleS (moduleIdParts : List Token)
  | use (moduleIdParts : List Token) (aliasTok : Token)

end

/-! ### Parser (src/src/parser.cpp).  The token cursor `PSt` models the
`tokens_` / `current_` pair; `Except String` models the thrown `ParseError`;
a fuel parameter makes the recursive descent total (every call site passes
the predecessor fuel, and `parse` supplies plenty). -/

/-- Parser cursor: `std::vector<Token> tokens_; size_t current_;`. -/
structure PSt where
  tokens : List Token
  current : Nat
deriving DecidableEq, Repr

/-- `Parser::peek`. -/
def pPeek (st : PSt) : Token := st.tokens.getD st.current default

/-- `Parser::previous`. -/
def pPrev (st : PSt) : Token := st.tokens.getD (st.current - 1) default

/-- `Parser::isAtEnd`. -/
def pAtEnd (st : PSt) : Bool := (pPeek st).type = .Eof

/-- `Parser::advance`. -/
def pAdvance (st : PSt) : PSt :=
  if pAtEnd st then st else { st with current := st.current + 1 }

/-- `Parser::check`. -/
def pCheck (t : TokenType) (st : PSt) : Bool :=
  if pAtEnd st then false else (pPeek st).type = t

/-- `Parser::match` over a list of kinds: consume and report the first kind
that checks. -/
def pMatch (types : List TokenType) (st : PSt) : Bool × PSt :=
  match types with
  | [] => (false, st)
  | t :: ts => if pCheck t st then (true, pAdvance st) else pMatch ts st

/-- `Parser::error`: the `ParseError` message format. -/
def pErr (tok : Token) (msg : String) : String :=
  "Parse error at line " ++ toString tok.line ++ ": " ++ msg ++
    " (got \x27" ++ tok.lexeme ++ "\x27)"

/-- `Parser::consume`. -/
def pConsume (t : TokenType) (msg : String) (st : PSt) :
    Except String (Token × PSt) :=
  if pCheck t st then .ok (pPeek st, pAdvance st)
  else .error (pErr (pPeek st) msg)

/-- `unquoteStringLexeme` (src/src/parser.cpp): strip the quotes and decode
the escapes `\n \r \t \\ \"`, preserving the backslash of an unknown
escape. -/
def unquoteChars (cs : List Char) : List Char :=
  match cs with
  | [] => []
  | '\\' :: next :: rest =>
      if next = 'n' then '\n' :: unquoteChars rest
      else if next = 'r' then '\r' :: unquoteChars rest
      else if next = 't' then '\t' :: unquoteChars rest
      else if next = '\\' then '\\' :: unquoteChars rest
      else if next = '"' then '"' :: unquoteChars rest
      else '\\' :: next :: unquoteChars rest
  | ch :: rest => ch :: unquoteChars rest

/-- `unquoteStringLexeme`, top level: only a lexeme enclosed in quotes is
unquoted, anything else is returned unchanged. -/
def unquoteStringLexeme (lexeme : String) : String :=
  let cs := lexeme.toList
  if 2 ≤ cs.length ∧ cs.head? = some '"' ∧ cs.getLast? = some '"' then
    String.mk (unquoteChars (cs.drop 1 |>.dropLast))
  else lexeme

/-- Digits-to-number accumulator for `std::stod` on lexer-shaped numerals. -/
def digitsVal (cs : List Char) (acc : Nat) : Nat :=
  match cs with
  | [] => acc
  | c :: rest => digitsVal rest (acc * 10 + (c.toNat - '0'.toNat))

/-- `std::stod` restricted to the numeral shapes the lexer produces
(`digits` or `digits.digits`); any other lexeme fails, which `primary`
turns into the invalid-number-literal parse error. -/
def stodLuma (s : String) : Option ℚ :=
  let cs := s.toList
  match cs with
  | [] => none
  | c :: _ =>
    if ¬ lxIsDigit c then none
    else
      let (ip, rest) := lxTakeDigits cs
      match rest with
      | [] => some (digitsVal ip 0)
      | '.' :: frac =>
        let (fp, rest') := lxTakeDigits frac
        if fp = [] ∨ rest' ≠ [] then none
        else some ((digitsVal ip 0 : ℚ) +
                   (digitsVal fp 0 : ℚ) / ((10 : ℚ) ^ fp.length))
      | _ => none

/-- `Parser::isStatementStart` cases of `Parser::synchronize`. -/
def pSyncStart (t : TokenType) : Bool :=
  match t with
  | .Def | .Class | .If | .While | .Return | .Print | .Else
  | .Module | .Use | .Open | .Closed => true
  | _ => false

/-- `Parser::synchronize`: discard tokens to a statement boundary. -/
def pSynchronize (fuel : Nat) (st : PSt) : PSt :=
  match fuel with
  | 0 => st
  | fuel + 1 =>
    let st := pAdvance st
    pSyncGo fuel st
where
  pSyncGo (fuel : Nat) (st : PSt) : PSt :=
    match fuel with
    | 0 => st
    | fuel + 1 =>
      if pAtEnd st then st
      else if (pPrev st).type = .Semicolon then st
      else if pSyncStart (pPeek st).type then st
      else pSyncGo fuel (pAdvance st)

mutual

/-- `Parser::declaration` (src/src/parser.cpp lines 18-44): module/use
first, then the optional visibility modifier, then def/class; a modifier
not followed by `def`/`class` is an error only when it was `open`;
otherwise fall through to `statement`. -/
def declaration (fuel : Nat) (st : PSt) : Except String (Stmt × PSt) :=
  match fuel with
  | 0 => .error "parser out of fuel"
  | fuel + 1 =>
    match pMatch [.Module] st with
    | (true, st) => moduleDeclaration fuel st
    | (false, st) =>
    match pMatch [.Use] st with
    | (true, st) => useStatement fuel st
    | (false, st) =>
    let (vis, st) :=
      match pMatch [.Open] st with
      | (true, st) => (Visibility.Open, st)
      | (false, st) =>
        match pMatch [.Closed] st with
        | (true, st) => (Visibility.Closed, st)
        | (false, st) => (Visibility.Closed, st)
    match pMatch [.Def] st with
    | (true, st) => functionDeclaration fuel vis st
    | (false, st) =>
    match pMatch [.Class] st with
    | (true, st) => classDeclaration fuel vis st
    | (false, st) =>
    if vis = .Open then
      .error (pErr (pPrev st) "\x27open\x27 must be followed by \x27def\x27 or \x27class\x27.")
    else statement fuel st

/-- `Parser::parseModuleId` tail loop (`while (match({Dot})) ...`). -/
def parseModuleIdLoop (fuel : Nat) (parts : List Token) (st : PSt) :
    Except String (List Token × PSt) :=
  match fuel with
  | 0 => .error "parser out of fuel"
  | fuel + 1 =>
    match pMatch [.Dot] st with
    | (false, st) => .ok (parts, st)
    | (true, st) =>
      let dotTok := pPrev st
      match pConsume .Identifier "Expected identifier after \x27.\x27 in module ID." st with
      | .error e => .error e
      | .ok (seg, st) => parseModuleIdLoop fuel (parts ++ [dotTok, seg]) st

/-- `Parser::parseModuleId`: `@ident(.ident)*`; the `@` token was consumed
by the caller and is `previous()`. -/
def parseModuleId (fuel : Nat) (st : PSt) : Except String (List Token × PSt) :=
  match fuel with
  | 0 => .error "parser out of fuel"
  | fuel + 1 =>
    let atToken := pPrev st
    match pConsume .Identifier "Expected module name after \x27@\x27." st with
    | .error e => .error e
    | .ok (ident, st) => parseModuleIdLoop fuel [atToken, ident] st

/-- `Parser::moduleDeclaration`. -/
def moduleDeclaration (fuel : Nat) (st : PSt) : Except String (Stmt × PSt) :=
  match fuel with
  | 0 => .error "parser out of fuel"
  | fuel + 1 =>
    match pConsume .At "Expected \x27@\x27 after \x27module\x27." st with
    | .error e => .error e
    | .ok (_, st) =>
      match parseModuleId fuel st with
      | .error e => .error e
      | .ok (parts, st) =>
        let (_, st) := pMatch [.Semicolon] st
        .ok (.moduleS parts, st)

/-- `Parser::useStatement`. -/
def useStatement (fuel : Nat) (st : PSt) : Except String (Stmt × PSt) :=
  match fuel with
  | 0 => .error "parser out of fuel"
  | fuel + 1 =>
    match pConsume .At "Expected \x27@\x27 after \x27use\x27." st with
    | .error e => .error e
    | .ok (_, st) =>
      match parseModuleId fuel st with
      | .error e => .error e
      | .ok (parts, st) =>
        match pConsume .As "Expected \x27as\x27 after module ID in use statement." st with
        | .error e => .error e
        | .ok (_, st) =>
          match pConsume .Identifier "Expected alias name after \x27as\x27." st with
          | .error e => .error e
          | .ok (aliasTok, st) =>
            let (_, st) := pMatch [.Semicolon] st
            .ok (.use parts aliasTok, st)

/-- `Parser::statement`. -/
def statement (fuel : Nat) (st : PSt) : Except String (Stmt × PSt) :=
  match fuel with
  | 0 => .error "parser out of fuel"
  | fuel + 1 =>
    match pMatch [.Print] st with
    | (true, st) => printStatement fuel st
    | (false, st) =>
    match pMatch [.If] st with
    | (true, st) => ifStatement fuel st
    | (false, st) =>
    match pMatch [.While] st with
    | (true, st) => whileStatement fuel st
    | (false, st) =>
    match pMatch [.Until] st with
    | (true, st) => untilStatement fuel st
    | (false, st) =>
    match pMatch [.Return] st with
    | (true, st) => returnStatement fuel st
    | (false, st) =>
    match pMatch [.Echo] st with
    | (true, st) => echoStatement fuel st
    | (false, st) =>
    match pMatch [.Maybe] st with
    | (true, st) => maybeStatement fuel st
    | (false, st) => assignmentOrExprStatement fuel st

/-- `Parser::printStatement`. -/
def printStatement (fuel : Nat) (st : PSt) : Except String (Stmt × PSt) :=
  match fuel with
  | 0 => .error "parser out of fuel"
  | fuel + 1 =>
    match pConsume .LeftParen "Expected \x27(\x27 after \x27print\x27." st with
    | .error e => .error e
    | .ok (_, st) =>
      match expression fuel st with
      | .error e => .error e
      | .ok (value, st) =>
        match pConsume .RightParen "Expected \x27)\x27 after print expression." st with
        | .error e => .error e
        | .ok (_, st) =>
          let (_, st) := pMatch [.Semicolon] st
          .ok (.print value, st)

/-- `Parser::ifStatement` (else-if by recursive reentry). -/
def ifStatement (fuel : Nat) (st : PSt) : Except String (Stmt × PSt) :=
  match fuel with
  | 0 => .error "parser out of fuel"
  | fuel + 1 =>
    match pConsume .LeftParen "Expected \x27(\x27 after \x27if\x27." st with
    | .error e => .error e
    | .ok (_, st) =>
      match expression fuel st with
      | .error e => .error e
      | .ok (cond, st) =>
        match pConsume .RightParen "Expected \x27)\x27 after if condition." st with
        | .error e => .error e
        | .ok (_, st) =>
          match blockP fuel st with
          | .error e => .error e
          | .ok (thenBlock, st) =>
            match pMatch [.Else] st with
            | (false, st) => .ok (.ifS cond thenBlock none, st)
            | (true, st) =>
              match pMatch [.If] st with
              | (true, st) =>
                match ifStatement fuel st with
                | .error e => .error e
                | .ok (elseIf, st) => .ok (.ifS cond thenBlock (some elseIf), st)
              | (false, st) =>
                match blockP fuel st with
                | .error e => .error e
                | .ok (elseB, st) =>
                    .ok (.ifS cond thenBlock (some (.block elseB)), st)

/-- `Parser::whileStatement`. -/
def whileStatement (fuel : Nat) (st : PSt) : Except String (Stmt × PSt) :=
  match fuel with
  | 0 => .error "parser out of fuel"
  | fuel + 1 =>
    match pConsume .LeftParen "Expected \x27(\x27 after \x27while\x27." st with
    | .error e => .error e
    | .ok (_, st) =>
      match expression fuel st with
      | .error e => .error e
      | .ok (cond, st) =>
        match pConsume .RightParen "Expected \x27)\x27 after while condition." st with
        | .error e => .error e
        | .ok (_, st) =>
          match blockP fuel st with
          | .error e => .error e
          | .ok (body, st) => .ok (.whileS cond body, st)

/-- `Parser::untilStatement`. -/
def untilStatement (fuel : Nat) (st : PSt) : Except String (Stmt × PSt) :=
  match fuel with
  | 0 => .error "parser out of fuel"
  | fuel + 1 =>
    match pConsume .LeftParen "Expected \x27(\x27 after \x27until\x27." st with
    | .error e => .error e
    | .ok (_, st) =>
      match expression fuel st with
      | .error e => .error e
      | .ok (cond, st) =>
        match pConsume .RightParen "Expected \x27)\x27 after until condition." st with
        | .error e => .error e
        | .ok (_, st) =>
          match blockP fuel st with
          | .error e => .error e
          | .ok (body, st) => .ok (.untilS cond body, st)

/-- `Parser::returnStatement`: `return;`, `return }` or `return <expr>`. -/
def returnStatement (fuel : Nat) (st : PSt) : Except String (Stmt × PSt) :=
  match fuel with
  | 0 => .error "parser out of fuel"
  | fuel + 1 =>
    let kw := pPrev st
    if ¬ pCheck .Semicolon st ∧ ¬ pCheck .RightBrace st ∧ ¬ pAtEnd st then
      match expression fuel st with
      | .error e => .error e
      | .ok (value, st) =>
        let (_, st) := pMatch [.Semicolon] st
        .ok (.ret kw (some value), st)
    else
      let (_, st) := pMatch [.Semicolon] st
      .ok (.ret kw none, st)

/-- `Parser::echoStatement`. -/
def echoStatement (fuel : Nat) (st : PSt) : Except String (Stmt × PSt) :=
  match fuel with
  | 0 => .error "parser out of fuel"
  | fuel + 1 =>
    match expression fuel st with
    | .error e => .error e
    | .ok (count, st) =>
      match blockP fuel st with
      | .error e => .error e
      | .ok (body, st) => .ok (.echo count body, st)

/-- `Parser::maybeStatement`. -/
def maybeStatement (fuel : Nat) (st : PSt) : Except String (Stmt × PSt) :=
  match fuel with
  | 0 => .error "parser out of fuel"
  | fuel + 1 =>
    match blockP fuel st with
    | .error e => .error e
    | .ok (tryB, st) =>
      match pMatch [.Otherwise] st with
      | (false, st) => .ok (.maybe tryB none, st)
      | (true, st) =>
        match blockP fuel st with
        | .error e => .error e
        | .ok (othB, st) => .ok (.maybe tryB (some othB), st)

/-- `Parser::assignmentOrExprStatement`: expression statement, swap, or the
three syntactic assignment-target shapes. -/
def assignmentOrExprStatement (fuel : Nat) (st : PSt) :
    Except String (Stmt × PSt) :=
  match fuel with
  | 0 => .error "parser out of fuel"
  | fuel + 1 =>
    match expression fuel st with
    | .error e => .error e
    | .ok (e, st) =>
      match pMatch [.Swap] st with
      | (true, st) =>
        match e with
        | .variableE v =>
          match pConsume .Identifier "Expected identifier after \x27<->\x27." st with
          | .error err => .error err
          | .ok (right, st) =>
            let (_, st) := pMatch [.Semicolon] st
            .ok (.swap v right, st)
        | _ => .error (pErr (pPrev st) "Invalid swap target.")
      | (false, st) =>
      match pMatch [.Equal] st with
      | (true, st) =>
        match expression fuel st with
        | .error err => .error err
        | .ok (value, st) =>
          let (_, st) := pMatch [.Semicolon] st
          match e with
          | .variableE v => .ok (.varAssign v value, st)
          | .get obj name => .ok (.exprStmt (.set obj name value), st)
          | .index obj bracket idx =>
              .ok (.exprStmt (.indexSet obj bracket idx value), st)
          | _ => .error (pErr (pPrev st) "Invalid assignment target.")
      | (false, st) =>
        let (_, st) := pMatch [.Semicolon] st
        .ok (.exprStmt e, st)

/-- `Parser::block` body loop. -/
def blockLoop (fuel : Nat) (acc : List Stmt) (st : PSt) :
    Except String (List Stmt × PSt) :=
  match fuel with
  | 0 => .error "parser out of fuel"
  | fuel + 1 =>
    if ¬ pCheck .RightBrace st ∧ ¬ pAtEnd st then
      match declaration fuel st with
      | .error e => .error e
      | .ok (s, st) => blockLoop fuel (acc ++ [s]) st
    else .ok (acc, st)

/-- `Parser::block`. -/
def blockP (fuel : Nat) (st : PSt) : Except String (List Stmt × PSt) :=
  match fuel with
  | 0 => .error "parser out of fuel"
  | fuel + 1 =>
    match pConsume .LeftBrace "Expected \x27\x7b\x27 to start block." st with
    | .error e => .error e
    | .ok (_, st) =>
      match blockLoop fuel [] st with
      | .error e => .error e
      | .ok (stmts, st) =>
        match pConsume .RightBrace "Expected \x27\x7d\x27 after block." st with
        | .error e => .error e
        | .ok (_, st) => .ok (stmts, st)

/-- Parameter-list loop of `Parser::functionDeclaration`. -/
def paramLoop (fuel : Nat) (acc : List Token) (st : PSt) :
    Except String (List Token × PSt) :=
  match fuel with
  | 0 => .error "parser out of fuel"
  | fuel + 1 =>
    match pConsume .Identifier "Expected parameter name." st with
    | .error e => .error e
    | .ok (p, st) =>
      match pMatch [.Comma] st with
      | (true, st) => paramLoop fuel (acc ++ [p]) st
      | (false, st) => .ok (acc ++ [p], st)

/-- `Parser::functionDeclaration`. -/
def functionDeclaration (fuel : Nat) (vis : Visibility) (st : PSt) :
    Except String (Stmt × PSt) :=
  match fuel with
  | 0 => .error "parser out of fuel"
  | fuel + 1 =>
    match pConsume .Identifier "Expected function name after \x27def\x27." st with
    | .error e => .error e
    | .ok (name, st) =>
      match pConsume .LeftParen "Expected \x27(\x27 after function name." st with
      | .error e => .error e
      | .ok (_, st) =>
        match
          (if pCheck .RightParen st then .ok ([], st) else paramLoop fuel [] st :
            Except String (List Token × PSt)) with
        | .error e => .error e
        | .ok (params, st) =>
          match pConsume .RightParen "Expected \x27)\x27 after parameters." st with
          | .error e => .error e
          | .ok (_, st) =>
            match blockP fuel st with
            | .error e => .error e
            | .ok (body, st) => .ok (.funcDef name params body vis, st)

/-- Method loop of `Parser::classDeclaration` (each method is parsed by
`functionDeclaration()`, whose default visibility argument is `Closed`). -/
def methodLoop (fuel : Nat) (acc : List (Token × List Token × List Stmt))
    (st : PSt) :
    Except String (List (Token × List Token × List Stmt) × PSt) :=
  match fuel with
  | 0 => .error "parser out of fuel"
  | fuel + 1 =>
    if ¬ pCheck .RightBrace st ∧ ¬ pAtEnd st then
      match pConsume .Def "Expected \x27def\x27 to define method." st with
      | .error e => .error e
      | .ok (_, st) =>
        match functionDeclaration fuel .Closed st with
        | .error e => .error e
        | .ok (.funcDef name params body _, st) =>
            methodLoop fuel (acc ++ [(name, params, body)]) st
        | .ok (_, _) => .error "unreachable: functionDeclaration returns FuncDefStmt"
    else .ok (acc, st)

/-- `Parser::classDeclaration`. -/
def classDeclaration (fuel : Nat) (vis : Visibility) (st : PSt) :
    Except String (Stmt × PSt) :=
  match fuel with
  | 0 => .error "parser out of fuel"
  | fuel + 1 =>
    match pConsume .Identifier "Expected class name." st with
    | .error e => .error e
    | .ok (name, st) =>
      match pConsume .LeftBrace "Expected \x27\x7b\x27 before class body." st with
      | .error e => .error e
      | .ok (_, st) =>
        match methodLoop fuel [] st with
        | .error e => .error e
        | .ok (methods, st) =>
          match pConsume .RightBrace "Expected \x27\x7d\x27 after class body." st with
          | .error e => .error e
          | .ok (_, st) => .ok (.classS name methods vis, st)

/-- `Parser::expression`. -/
def expression (fuel : Nat) (st : PSt) : Except String (Expr × PSt) :=
  match fuel with
  | 0 => .error "parser out of fuel"
  | fuel + 1 => logicalOr fuel st

/-- `Parser::logicalOr`. -/
def logicalOr (fuel : Nat) (st : PSt) : Except String (Expr × PSt) :=
  match fuel with
  | 0 => .error "parser out of fuel"
  | fuel + 1 =>
    match logicalAnd fuel st with
    | .error e => .error e
    | .ok (e, st) => logicalOrLoop fuel e st

/-- `while (match({Or}))` loop of `logicalOr`. -/
def logicalOrLoop (fuel : Nat) (e : Expr) (st : PSt) :
    Except String (Expr × PSt) :=
  match fuel with
  | 0 => .error "parser out of fuel"
  | fuel + 1 =>
    match pMatch [.Or] st with
    | (false, st) => .ok (e, st)
    | (true, st) =>
      let op := pPrev st
      match logicalAnd fuel st with
      | .error err => .error err
      | .ok (right, st) => logicalOrLoop fuel (.binary e op right) st

/-- `Parser::logicalAnd`. -/
def logicalAnd (fuel : Nat) (st : PSt) : Except String (Expr × PSt) :=
  match fuel with
  | 0 => .error "parser out of fuel"
  | fuel + 1 =>
    match equality fuel st with
    | .error e => .error e
    | .ok (e, st) => logicalAndLoop fuel e st

/-- `while (match({And}))` loop of `logicalAnd`. -/
def logicalAndLoop (fuel : Nat) (e : Expr) (st : PSt) :
    Except String (Expr × PSt) :=
  match fuel with
  | 0 => .error "parser out of fuel"
  | fuel + 1 =>
    match pMatch [.And] st with
    | (false, st) => .ok (e, st)
    | (true, st) =>
      let op := pPrev st
      match equality fuel st with
      | .error err => .error err
      | .ok (right, st) => logicalAndLoop fuel (.binary e op right) st

/-- `Parser::equality`. -/
def equality (fuel : Nat) (st : PSt) : Except String (Expr × PSt) :=
  match fuel with
  | 0 => .error "parser out of fuel"
  | fuel + 1 =>
    match comparison fuel st with
    | .error e => .error e
    | .ok (e, st) => equalityLoop fuel e st

/-- `while (match({BangEqual, EqualEqual}))` loop. -/
def equalityLoop (fuel : Nat) (e : Expr) (st : PSt) :
    Except String (Expr × PSt) :=
  match fuel with
  | 0 => .error "parser out of fuel"
  | fuel + 1 =>
    match pMatch [.BangEqual, .EqualEqual] st with
    | (false, st) => .ok (e, st)
    | (true, st) =>
      let op := pPrev st
      match comparison fuel st with
      | .error err => .error err
      | .ok (right, st) => equalityLoop fuel (.binary e op right) st

/-- `Parser::comparison`. -/
def comparison (fuel : Nat) (st : PSt) : Except String (Expr × PSt) :=
  match fuel with
  | 0 => .error "parser out of fuel"
  | fuel + 1 =>
    match term fuel st with
    | .error e => .error e
    | .ok (e, st) => comparisonLoop fuel e st

/-- `while (match({Greater, GreaterEqual, Less, LessEqual}))` loop. -/
def comparisonLoop (fuel : Nat) (e : Expr) (st : PSt) :
    Except String (Expr × PSt) :=
  match fuel with
  | 0 => .error "parser out of fuel"
  | fuel + 1 =>
    match pMatch [.Greater, .GreaterEqual, .Less, .LessEqual] st with
    | (false, st) => .ok (e, st)
    | (true, st) =>
      let op := pPrev st
      match term fuel st with
      | .error err => .error err
      | .ok (right, st) => comparisonLoop fuel (.binary e op right) st

/-- `Parser::term`. -/
def term (fuel : Nat) (st : PSt) : Except String (Expr × PSt) :=
  match fuel with
  | 0 => .error "parser out of fuel"
  | fuel + 1 =>
    match factor fuel st with
    | .error e => .error e
    | .ok (e, st) => termLoop fuel e st

/-- `while (match({Plus, Minus}))` loop. -/
def termLoop (fuel : Nat) (e : Expr) (st : PSt) : Except String (Expr × PSt) :=
  match fuel with
  | 0 => .error "parser out of fuel"
  | fuel + 1 =>
    match pMatch [.Plus, .Minus] st with
    | (false, st) => .ok (e, st)
    | (true, st) =>
      let op := pPrev st
      match factor fuel st with
      | .error err => .error err
      | .ok (right, st) => termLoop fuel (.binary e op right) st

/-- `Parser::factor`. -/
def factor (fuel : Nat) (st : PSt) : Except String (Expr × PSt) :=
  match fuel with
  | 0 => .error "parser out of fuel"
  | fuel + 1 =>
    match unaryP fuel st with
    | .error e => .error e
    | .ok (e, st) => factorLoop fuel e st

/-- `while (match({Star, Slash}))` loop. -/
def factorLoop (fuel : Nat) (e : Expr) (st : PSt) :
    Except String (Expr × PSt) :=
  match fuel with
  | 0 => .error "parser out of fuel"
  | fuel + 1 =>
    match pMatch [.Star, .Slash] st with
    | (false, st) => .ok (e, st)
    | (true, st) =>
      let op := pPrev st
      match unaryP fuel st with
      | .error err => .error err
      | .ok (right, st) => factorLoop fuel (.binary e op right) st

/-- `Parser::unary`. -/
def unaryP (fuel : Nat) (st : PSt) : Except String (Expr × PSt) :=
  match fuel with
  | 0 => .error "parser out of fuel"
  | fuel + 1 =>
    match pMatch [.Bang, .Minus, .Not] st with
    | (true, st) =>
      let op := pPrev st
      match unaryP fuel st with
      | .error e => .error e
      | .ok (right, st) => .ok (.unary op right, st)
    | (false, st) => callP fuel st

/-- Argument-list loop of `Parser::call`. -/
def argLoop (fuel : Nat) (acc : List Expr) (st : PSt) :
    Except String (List Expr × PSt) :=
  match fuel with
  | 0 => .error "parser out of fuel"
  | fuel + 1 =>
    match expression fuel st with
    | .error e => .error e
    | .ok (a, st) =>
      match pMatch [.Comma] st with
      | (true, st) => argLoop fuel (acc ++ [a]) st
      | (false, st) => .ok (acc ++ [a], st)

/-- Postfix loop of `Parser::call` (`()`, `.name`, `[index]`). -/
def callLoop (fuel : Nat) (e : Expr) (st : PSt) : Except String (Expr × PSt) :=
  match fuel with
  | 0 => .error "parser out of fuel"
  | fuel + 1 =>
    match pMatch [.LeftParen] st with
    | (true, st) =>
      let paren := pPrev st
      match
        (if pCheck .RightParen st then .ok ([], st) else argLoop fuel [] st :
          Except String (List Expr × PSt)) with
      | .error err => .error err
      | .ok (args, st) =>
        match pConsume .RightParen "Expected \x27)\x27 after arguments." st with
        | .error err => .error err
        | .ok (_, st) => callLoop fuel (.call e paren args) st
    | (false, st) =>
    match pMatch [.Dot] st with
    | (true, st) =>
      match pConsume .Identifier "Expected property name after \x27.\x27." st with
      | .error err => .error err
      | .ok (name, st) => callLoop fuel (.get e name) st
    | (false, st) =>
    match pMatch [.LeftBracket] st with
    | (true, st) =>
      let bracket := pPrev st
      match expression fuel st with
      | .error err => .error err
      | .ok (idx, st) =>
        match pConsume .RightBracket "Expected \x27]\x27 after index." st with
        | .error err => .error err
        | .ok (_, st) => callLoop fuel (.index e bracket idx) st
    | (false, st) => .ok (e, st)

/-- `Parser::call`. -/
def callP (fuel : Nat) (st : PSt) : Except String (Expr × PSt) :=
  match fuel with
  | 0 => .error "parser out of fuel"
  | fuel + 1 =>
    match primary fuel st with
    | .error e => .error e
    | .ok (e, st) => callLoop fuel e st

/-- List-elements loop of `primary`'s `[ ... ]` branch. -/
def listLoop (fuel : Nat) (acc : List Expr) (st : PSt) :
    Except String (List Expr × PSt) :=
  match fuel with
  | 0 => .error "parser out of fuel"
  | fuel + 1 =>
    match expression fuel st with
    | .error e => .error e
    | .ok (a, st) =>
      match pMatch [.Comma] st with
      | (true, st) => listLoop fuel (acc ++ [a]) st
      | (false, st) => .ok (acc ++ [a], st)

/-- Map-entries loop of `primary`'s `\x7b key: value, ... \x7d` branch. -/
def mapLoop (fuel : Nat) (ks : List Expr) (vs : List Expr) (st : PSt) :
    Except String (List Expr × List Expr × PSt) :=
  match fuel with
  | 0 => .error "parser out of fuel"
  | fuel + 1 =>
    match expression fuel st with
    | .error e => .error e
    | .ok (k, st) =>
      match pConsume .Colon "Expected \x27:\x27 in map entry." st with
      | .error e => .error e
      | .ok (_, st) =>
        match expression fuel st with
        | .error e => .error e
        | .ok (v, st) =>
          match pMatch [.Comma] st with
          | (true, st) => mapLoop fuel (ks ++ [k]) (vs ++ [v]) st
          | (false, st) => .ok (ks ++ [k], vs ++ [v], st)

/-- `Parser::primary`. -/
def primary (fuel : Nat) (st : PSt) : Except String (Expr × PSt) :=
  match fuel with
  | 0 => .error "parser out of fuel"
  | fuel + 1 =>
    match pMatch [.Number] st with
    | (true, st) =>
      let t := pPrev st
      match stodLuma t.lexeme with
      | some v => .ok (.literal { kind := .Number, numberValue := v }, st)
      | none => .error (pErr t ("Invalid number literal: " ++ t.lexeme))
    | (false, st) =>
    match pMatch [.String] st with
    | (true, st) =>
      let t := pPrev st
      .ok (.literal { kind := .String, stringValue := unquoteStringLexeme t.lexeme }, st)
    | (false, st) =>
    match pMatch [.True] st with
    | (true, st) => .ok (.literal { kind := .Bool, boolValue := true }, st)
    | (false, st) =>
    match pMatch [.False] st with
    | (true, st) => .ok (.literal { kind := .Bool, boolValue := false }, st)
    | (false, st) =>
    match pMatch [.Nil] st with
    | (true, st) => .ok (.literal { kind := .Nil }, st)
    | (false, st) =>
    match pMatch [.Identifier] st with
    | (true, st) => .ok (.variableE (pPrev st), st)
    | (false, st) =>
    match pMatch [.This] st with
    | (true, st) => .ok (.thisE (pPrev st), st)
    | (false, st) =>
    match pMatch [.LeftBracket] st with
    | (true, st) =>
      match
        (if pCheck .RightBracket st then .ok ([], st) else listLoop fuel [] st :
          Except String (List Expr × PSt)) with
      | .error e => .error e
      | .ok (elements, st) =>
        match pConsume .RightBracket "Expected \x27]\x27 after list elements." st with
        | .error e => .error e
        | .ok (_, st) => .ok (.listE elements, st)
    | (false, st) =>
    match pMatch [.LeftBrace] st with
    | (true, st) =>
      match
        (if pCheck .RightBrace st then .ok ([], [], st) else mapLoop fuel [] [] st :
          Except String (List Expr × List Expr × PSt)) with
      | .error e => .error e
      | .ok (ks, vs, st) =>
        match pConsume .RightBrace "Expected \x27\x7d\x27 after map entries." st with
        | .error e => .error e
        | .ok (_, st) => .ok (.mapE ks vs, st)
    | (false, st) =>
    match pMatch [.LeftParen] st with
    | (true, st) =>
      match expression fuel st with
      | .error e => .error e
      | .ok (e, st) =>
        match pConsume .RightParen "Expected \x27)\x27 after expression." st with
        | .error err => .error err
        | .ok (_, st) => .ok (.grouping e, st)
    | (false, st) => .error (pErr (pPeek st) "Expected expression.")

end

/-- `Parser::parse` top loop: each failed declaration is reported,
resynchronized past, and excluded from the returned statement list. -/
def parseLoop (fuel : Nat) (st : PSt) (acc : List Stmt) : Option (List Stmt) :=
  match fuel with
  | 0 => none
  | fuel + 1 =>
    if pAtEnd st then some acc
    else
      match declaration fuel st with
      | .ok (s, st) => parseLoop fuel st (acc ++ [s])
      | .error _ => parseLoop fuel (pSynchronize fuel st) acc

/-- `Parser::parse` on a token vector (fuel chosen large enough for every
input; `none` is fuel exhaustion, never a parse failure). -/
def parse (tokens : List Token) : Option (List Stmt) :=
  parseLoop (8 * tokens.length + 64) ⟨tokens, 0⟩ []

/-! ### Runtime values and interpreter state (src/src/value.hpp,
src/src/environment.hpp, src/src/interpreter.cpp).  Every shared_ptr target
lives in one of the append-only heaps of `State`; the `Nat` index is the
pointer. -/

/-- The `Value` variant (monostate, double, string, bool, FunctionPtr,
ListPtr, ClassPtr, InstancePtr, MapPtr, NativeFunctionPtr). -/
inductive Value where
  | nil
  | num (n : ℚ)
  | str (s : String)
  | bool (b : Bool)
  | fn (r : Nat)
  | list (r : Nat)
  | cls (r : Nat)
  | inst (r : Nat)
  | map (r : Nat)
  | native (r : Nat)
deriving DecidableEq, Repr

/-- `struct Function` of src/src/value.hpp: metadata plus the closure
environment reference. -/
structure FunctionObj where
  name : Token
  params : List Token
  body : List Stmt
  closure : Nat

instance : Inhabited FunctionObj := ⟨⟨default, [], [], 0⟩⟩

/-- `struct LumaClass`. -/
structure ClassObj where
  name : String
  methods : List (String × Nat)
deriving DecidableEq, Repr

instance : Inhabited ClassObj := ⟨⟨"", []⟩⟩

/-- `LumaClass::findMethod`. -/
def ClassObj.findMethod (c : ClassObj) (name : String) : Option Nat :=
  assocGet c.methods name

/-- `struct LumaInstance`. -/
structure InstObj where
  klass : Nat
  fields : List (String × Value)
deriving DecidableEq, Repr

instance : Inhabited InstObj := ⟨⟨0, []⟩⟩

/-- Which native implementation a `NativeFunctionObject` wraps: the five
global builtins registered by the `Interpreter` constructor, or one of the
stdlib-module natives (external collaborators per spec §4.6, black boxes to
the core). -/
inductive NativeKind where
  | len | push | pop | keys | remove | stdlib
deriving DecidableEq, Repr

/-- `struct NativeFunctionObject`. -/
structure NativeObj where
  name : String
  func : NativeKind
  arity : Nat
  variadic : Bool := false
deriving DecidableEq, Repr

instance : Inhabited NativeObj := ⟨⟨"", .stdlib, 0, false⟩⟩

/-- One `Environment` frame: its name map and the optional enclosing
frame. -/
structure Frame where
  values : List (String × Value)
  enclosing : Option Nat
deriving DecidableEq, Repr

instance : Inhabited Frame := ⟨⟨[], none⟩⟩

/-- The whole mutable interpreter state: the object heaps, the interpreter
fields of src/src/interpreter.cpp (globals_, module cache, loading set,
current-module bookkeeping, roots), the print output, and the filesystem
the module loader reads (a path is readable when it has an entry in
`fsRead`; `fs::exists` consults `fsExists`). -/
structure State where
  frames : List Frame := [⟨[], none⟩]
  lists : List (List Value) := []
  maps : List (List (String × Value)) := []
  fns : List FunctionObj := []
  classes : List ClassObj := []
  insts : List InstObj := []
  natives : List NativeObj := []
  globals : Nat := 0
  output : List String := []
  moduleCache : List (String × Nat) := []
  moduleAstCache : List (String × List Stmt) := []
  modulesLoading : List String := []
  currentModuleId : String := ""
  currentExports : Option Nat := none
  inModuleLoad : Bool := false
  stdlibRoot : String := ""
  projectRoot : String := ""
  fsExists : List String := []
  fsRead : List (String × String) := []

/-- Replace frame `r` (the heaps are append-only, frames are mutated in
place like the shared `Environment` objects). -/
def setFrame (s : State) (r : Nat) (f : Frame) : State :=
  { s with frames := s.frames.set r f }

/-- `Environment::define`: always inserts/overwrites in this frame. -/
def envDefine (s : State) (r : Nat) (name : String) (v : Value) : State :=
  let fr := s.frames.getD r default
  setFrame s r { fr with values := assocSet fr.values name v }

/-- `Environment::has`: non-throwing existence check across the chain.
`none` is fuel exhaustion (unreachable for the chains the interpreter
builds, whose length is below the frame-heap size it passes as fuel). -/
def envHas (s : State) (fuel : Nat) (r : Nat) (name : String) : Option Bool :=
  match fuel with
  | 0 => none
  | fuel + 1 =>
    let fr := s.frames.getD r default
    if (assocGet fr.values name).isSome then some true
    else
      match fr.enclosing with
      | some p => envHas s fuel p name
      | none => some false

/-- `Environment::get`: walk outward; `UndefinedVariable` carries the
lexeme and line of the requesting token. -/
def envGet (s : State) (fuel : Nat) (r : Nat) (name : Token) :
    Option (Except String Value) :=
  match fuel with
  | 0 => none
  | fuel + 1 =>
    let fr := s.frames.getD r default
    match assocGet fr.values name.lexeme with
    | some v => some (.ok v)
    | none =>
      match fr.enclosing with
      | some p => envGet s fuel p name
      | none =>
          some (.error ("Undefined variable \x27" ++ name.lexeme ++
                        "\x27 at line " ++ toString name.line))

/-- `Environment::assign`: mutate the nearest frame that already declares
the name, or fail. -/
def envAssign (s : State) (fuel : Nat) (r : Nat) (name : Token) (v : Value) :
    Option (Except String State) :=
  match fuel with
  | 0 => none
  | fuel + 1 =>
    let fr := s.frames.getD r default
    match assocGet fr.values name.lexeme with
    | some _ =>
        some (.ok (setFrame s r { fr with values := assocSet fr.values name.lexeme v }))
    | none =>
      match fr.enclosing with
      | some p => envAssign s fuel p name v
      | none =>
          some (.error ("Undefined variable \x27" ++ name.lexeme ++
                        "\x27 at line " ++ toString name.line))

/-- `isTruthy` (src/src/value.hpp): nil and false are falsy, everything
else is truthy. -/
def isTruthy (v : Value) : Bool :=
  match v with
  | .nil => false
  | .bool b => b
  | _ => true

/-- `valuesEqual` (src/src/value.hpp): nil==nil, scalar equality by value,
compound values by pointer identity (heap index); mismatched variants are
never equal. -/
def valuesEqual (a b : Value) : Bool :=
  match a, b with
  | .nil, .nil => true
  | .num x, .num y => x = y
  | .str x, .str y => x = y
  | .bool x, .bool y => x = y
  | .fn x, .fn y => x = y
  | .list x, .list y => x = y
  | .cls x, .cls y => x = y
  | .inst x, .inst y => x = y
  | .map x, .map y => x = y
  | .native x, .native y => x = y
  | _, _ => false

/-- `static_cast<int>` / `static_cast<int64_t>` applied to a number:
truncation toward zero (`Int.tdiv` is T-division, so `num/den` truncates
toward zero for every sign). -/
def qtrunc (q : ℚ) : Int := Int.tdiv q.num (q.den : Int)

/-- `numberToString` (src/src/value.hpp): integral values print as the
integer.  The `%.15g` formatting of non-integral doubles has no exact ℚ
counterpart; those print as the reduced fraction here, which no statement
below depends on. -/
def numberToString (q : ℚ) : String :=
  if q.den = 1 then toString q.num else toString q

/-- `valueToString` (src/src/value.hpp).  The C++ version recurses through
list/map pointers (and does not terminate on cyclic data); `fuel` bounds
that recursion, and callers pass one more than the heap size, enough for
every acyclic value. -/
def valueToString (s : State) (fuel : Nat) (v : Value) : String :=
  match fuel with
  | 0 => "<value>"
  | fuel + 1 =>
    match v with
    | .nil => "nil"
    | .num q => numberToString q
    | .str x => x
    | .bool b => if b then "true" else "false"
    | .fn r => "<fn " ++ (s.fns.getD r default).name.lexeme ++ ">"
    | .native r => "<native fn " ++ (s.natives.getD r default).name ++ ">"
    | .list r =>
        let elems := s.lists.getD r []
        "[" ++ String.intercalate ", " (elems.map (valueToString s fuel)) ++ "]"
    | .cls r => "<class " ++ (s.classes.getD r default).name ++ ">"
    | .inst r =>
        "<instance " ++
          (s.classes.getD (s.insts.getD r default).klass default).name ++ ">"
    | .map r =>
        let entries := s.maps.getD r []
        "\x7b" ++
          String.intercalate ", "
            (entries.map (fun kv => kv.1 ++ ": " ++ valueToString s fuel kv.2)) ++
          "\x7d"

/-- The `valueToString` fuel a `print` uses: one level per heap object
suffices for acyclic values. -/
def vtsFuel (s : State) : Nat := s.lists.length + s.maps.length + 1

/-- `requireNumber` (src/src/interpreter.cpp): `none` when the operand is a
number, otherwise the type-error message. -/
def requireNumber (s : State) (v : Value) (wh : String) : Option String :=
  match v with
  | .num _ => none
  | _ => some ("Type error: expected number in " ++ wh ++ ", got " ++
               valueToString s (vtsFuel s) v)

/-- C++ exceptions as outcomes: `std::runtime_error` (every runtime error),
the interpreter's `ReturnSignal`, and the artificial fuel exhaustion, which
every construct propagates and none catches. -/
inductive Exc where
  | rte (msg : String)
  | ret (v : Value)
  | fuelOut
deriving DecidableEq, Repr

/-- Outcome of a stateful step: a result or an exception, each with the
state at that point (C++ exceptions do not roll mutations back). -/
inductive Res (α : Type) where
  | ok (a : α) (s : State)
  | exc (e : Exc) (s : State)

/-- New environment frame (`std::make_shared<Environment>(parent)`). -/
def allocFrame (s : State) (enclosing : Option Nat) : Nat × State :=
  (s.frames.length, { s with frames := s.frames ++ [⟨[], enclosing⟩] })

/-- New list object. -/
def allocList (s : State) (elems : List Value) : Nat × State :=
  (s.lists.length, { s with lists := s.lists ++ [elems] })

/-- New map object. -/
def allocMap (s : State) (entries : List (String × Value)) : Nat × State :=
  (s.maps.length, { s with maps := s.maps ++ [entries] })

/-- New function object. -/
def allocFn (s : State) (f : FunctionObj) : Nat × State :=
  (s.fns.length, { s with fns := s.fns ++ [f] })

/-- New class object. -/
def allocClass (s : State) (c : ClassObj) : Nat × State :=
  (s.classes.length, { s with classes := s.classes ++ [c] })

/-- New instance object. -/
def allocInst (s : State) (i : InstObj) : Nat × State :=
  (s.insts.length, { s with insts := s.insts ++ [i] })

/-- New native-function object. -/
def allocNative (s : State) (n : NativeObj) : Nat × State :=
  (s.natives.length, { s with natives := s.natives ++ [n] })

/-- The arity-mismatch message of `Interpreter::callFunction`. -/
def arityMsg (want got : Nat) : String :=
  "Expected " ++ toString want ++ " arguments but got " ++ toString got ++ "."

/-- Bind parameters positionally in the fresh call frame
(`environment->define(params[i].lexeme, args[i])`). -/
def defineParams (s : State) (envRef : Nat) :
    List Token → List Value → State
  | [], _ => s
  | _, [] => s
  | p :: ps, a :: as' => defineParams (envDefine s envRef p.lexeme a) envRef ps as'

/-- The five global natives (`nativeLen/Push/Pop/Keys/Remove` of
src/src/interpreter.cpp); `.stdlib` covers the stdlib-module natives, which
the spec (§1, §4.6) excludes from the core — their behaviour plays no role
here (they are never invoked in any statement below). -/
def runNative (kind : NativeKind) (args : List Value) (s : State) : Res Value :=
  match kind with
  | .len =>
    match args.getD 0 .nil with
    | .list r => .ok (.num ((s.lists.getD r []).length : ℚ)) s
    | .map r => .ok (.num ((s.maps.getD r []).length : ℚ)) s
    | .str x => .ok (.num (x.length : ℚ)) s
    | _ => .exc (.rte "Object has no length (only list, map, string).") s
  | .push =>
    match args.getD 0 .nil with
    | .list r =>
        let v := args.getD 1 .nil
        .ok v { s with lists := s.lists.set r (s.lists.getD r [] ++ [v]) }
    | _ => .exc (.rte "Expected list for push.") s
  | .pop =>
    match args.getD 0 .nil with
    | .list r =>
        let elems := s.lists.getD r []
        match elems.getLast? with
        | none => .ok .nil s
        | some v => .ok v { s with lists := s.lists.set r elems.dropLast }
    | _ => .exc (.rte "Expected list for pop.") s
  | .keys =>
    match args.getD 0 .nil with
    | .map r =>
        let (lr, s) := allocList s ((s.maps.getD r []).map (fun kv => .str kv.1))
        .ok (.list lr) s
    | _ => .exc (.rte "Expected map for keys.") s
  | .remove =>
    match args.getD 0 .nil with
    | .map r =>
      match args.getD 1 .nil with
      | .str k =>
        let entries := s.maps.getD r []
        match assocGet entries k with
        | some v => .ok v { s with maps := s.maps.set r (assocErase entries k) }
        | none => .ok .nil s
      | _ => .exc (.rte "Map keys must be strings.") s
    | _ => .exc (.rte "Expected map for remove.") s
  | .stdlib => .ok .nil s

/-- `Interpreter::moduleIdToString`: concatenate the part lexemes. -/
def moduleIdToString (parts : List Token) : String :=
  parts.foldl (fun acc t => acc ++ t.lexeme) ""

/-- `fs::path operator/` on the flat string paths used here. -/
def pathJoin (base rel : String) : String :=
  if base = "" then rel else base ++ "/" ++ rel

/-- `util.math` → `util/math`. -/
def dotsToSlashes (rest : String) : String :=
  String.mk (rest.toList.map (fun c => if c = '.' then '/' else c))

/-- `Interpreter::resolveModulePath` (src/src/interpreter.cpp lines
775-827): split off the mount, map it to a root, build
`<root>/<segments>.lu`, and require the file to exist. -/
def resolveModulePath (s : State) (moduleId : String) : Except String String :=
  let cs := moduleId.toList
  if cs.headD ' ' ≠ '@' then .error ("Invalid module ID: " ++ moduleId)
  else
    let afterAt := cs.drop 1
    let (mount, rest) :=
      match afterAt.findIdx? (· = '.') with
      | none => (String.mk afterAt, "")
      | some i => (String.mk (afterAt.take i), String.mk (afterAt.drop (i + 1)))
    match
      (if mount = "std" then .ok s.stdlibRoot
       else if mount = "app" then .ok (pathJoin s.projectRoot "src")
       else .error ("Unknown module mount \x27@" ++ mount ++
                    "\x27. Use \x27@std\x27 or \x27@app\x27.") :
        Except String String) with
    | .error e => .error e
    | .ok basePath =>
      if rest = "" then
        .error ("Module ID \x27" ++ moduleId ++
                "\x27 must have at least one component after mount.")
      else
        let modulePath := pathJoin basePath (dotsToSlashes rest ++ ".lu")
        if s.fsExists.contains modulePath then .ok modulePath
        else
          .error ("Module file not found: " ++ modulePath ++ " (for module " ++
                  moduleId ++ ")")

/-- Modelled from the spec: the stdlib native catalog injected by
`Interpreter::injectNativeNatives` is the excluded native-function
collaborator of §1/§4.6 ("the loader calls out to inject native bindings
for module X ... keyed only by moduleId string"); its per-module entry
lists are immaterial to the core loader, so the catalog is left empty
(matching the source exactly for every moduleId outside the fixed stdlib
list, the only ids the theorems below instantiate). -/
def nativeCatalog (_moduleId : String) : List (String × Nat) := []

/-- `Interpreter::injectNativeNatives`: append each catalog native to the
heap and bind it in the export map. -/
def injectNativeNatives (moduleId : String) (eref : Nat) (s : State) : State :=
  (nativeCatalog moduleId).foldl
    (fun s entry =>
      let (nr, s) := allocNative s ⟨entry.1, .stdlib, entry.2, false⟩
      { s with maps := s.maps.set eref (assocSet (s.maps.getD eref []) entry.1 (.native nr)) })
    s

/-- The eager binary operators of `Interpreter::evaluate` (everything after
the Or/And short-circuit): `+ - * /`, the bitwise group, comparisons and
(in)equality.  `static_cast<int64_t>` is `qtrunc`; shifts use the
arithmetic-shift meaning of the host (the fragment is exercised by no
claim). -/
def evalBinOp (op : Token) (lv rv : Value) (s : State) : Res Value :=
  match op.type with
  | .Plus =>
    match lv, rv with
    | .num a, .num b => .ok (.num (a + b)) s
    | .str a, .str b => .ok (.str (a ++ b)) s
    | _, _ =>
        .exc (.rte "Type error: \x27+\x27 needs (number,number) or (string,string).") s
  | .Minus => numOp lv rv "binary \x27-\x27" s (fun a b => .ok (.num (a - b)) s)
  | .Star => numOp lv rv "binary \x27*\x27" s (fun a b => .ok (.num (a * b)) s)
  | .Slash =>
      numOp lv rv "binary \x27/\x27" s
        (fun a b =>
          if b = 0 then .exc (.rte "Runtime error: division by zero.") s
          else .ok (.num (a / b)) s)
  | .Ampersand =>
      numOp lv rv "bitwise \x27&\x27" s
        (fun a b => .ok (.num ((Int.land (qtrunc a) (qtrunc b) : Int) : ℚ)) s)
  | .Pipe =>
      numOp lv rv "bitwise \x27|\x27" s
        (fun a b => .ok (.num ((Int.lor (qtrunc a) (qtrunc b) : Int) : ℚ)) s)
  | .ShiftLeft =>
      numOp lv rv "bitwise \x27<<\x27" s
        (fun a b => .ok (.num ((qtrunc a * 2 ^ (qtrunc b).toNat : Int) : ℚ)) s)
  | .ShiftRight =>
      numOp lv rv "bitwise \x27>>\x27" s
        (fun a b => .ok (.num ((Int.fdiv (qtrunc a) (2 ^ (qtrunc b).toNat) : Int) : ℚ)) s)
  | .Greater => numOp lv rv "comparison" s (fun a b => .ok (.bool (b < a)) s)
  | .GreaterEqual => numOp lv rv "comparison" s (fun a b => .ok (.bool (b ≤ a)) s)
  | .Less => numOp lv rv "comparison" s (fun a b => .ok (.bool (a < b)) s)
  | .LessEqual => numOp lv rv "comparison" s (fun a b => .ok (.bool (a ≤ b)) s)
  | .EqualEqual => .ok (.bool (valuesEqual lv rv)) s
  | .BangEqual => .ok (.bool (¬ valuesEqual lv rv)) s
  | _ => .exc (.rte ("Unknown binary operator \x27" ++ op.lexeme ++ "\x27")) s
where
  numOp (lv rv : Value) (wh : String) (s : State)
      (k : ℚ → ℚ → Res Value) : Res Value :=
    match requireNumber s lv wh with
    | some m => .exc (.rte m) s
    | none =>
      match requireNumber s rv wh with
      | some m => .exc (.rte m) s
      | none =>
        match lv, rv with
        | .num a, .num b => k a b
        | _, _ => .exc (.rte "unreachable") s

/-- The per-statement export step of `loadModule`'s loop. -/
def exportIfOpen (stmt : Stmt) (env : Nat) (s : State) : Res Unit :=
  match stmt with
  | .funcDef name _ _ vis =>
    if vis = .Open then
      match envGet s s.frames.length env name with
      | none => .exc .fuelOut s
      | some (.error m) => .exc (.rte m) s
      | some (.ok v) =>
        let eref := s.currentExports.getD 0
        .ok () { s with maps := s.maps.set eref (assocSet (s.maps.getD eref []) name.lexeme v) }
    else .ok () s
  | .classS name _ vis =>
    if vis = .Open then
      match envGet s s.frames.length env name with
      | none => .exc .fuelOut s
      | some (.error m) => .exc (.rte m) s
      | some (.ok v) =>
        let eref := s.currentExports.getD 0
        .ok () { s with maps := s.maps.set eref (assocSet (s.maps.getD eref []) name.lexeme v) }
    else .ok () s
  | _ => .ok () s

mutual

/-- `Interpreter::execute` (src/src/interpreter.cpp lines 260-411), the
statement walk.  The current environment is the explicit `env` argument
(the C++ `env_` member, saved and restored around every block on all exit
paths, which argument passing models exactly). -/
def execute (fuel : Nat) (stmt : Stmt) (env : Nat) (s : State) : Res Unit :=
  match fuel with
  | 0 => .exc .fuelOut s
  | fuel + 1 =>
    match stmt with
    | .exprStmt e =>
      match evaluate fuel e env s with
      | .ok _ s => .ok () s
      | .exc ex s => .exc ex s
    | .print e =>
      match evaluate fuel e env s with
      | .ok v s => .ok () { s with output := s.output ++ [valueToString s (vtsFuel s) v] }
      | .exc ex s => .exc ex s
    | .varAssign name value =>
      match evaluate fuel value env s with
      | .exc ex s => .exc ex s
      | .ok v s =>
        match envHas s s.frames.length env name.lexeme with
        | none => .exc .fuelOut s
        | some true =>
          match envAssign s s.frames.length env name v with
          | none => .exc .fuelOut s
          | some (.error m) => .exc (.rte m) s
          | some (.ok s) => .ok () s
        | some false => .ok () (envDefine s env name.lexeme v)
    | .block stmts =>
      let (r, s) := allocFrame s (some env)
      executeBlock fuel stmts r s
    | .ifS cond thenB elseB =>
      match evaluate fuel cond env s with
      | .exc ex s => .exc ex s
      | .ok c s =>
        if isTruthy c then
          let (r, s) := allocFrame s (some env)
          executeBlock fuel thenB r s
        else
          match elseB with
          | none => .ok () s
          | some (.block stmts) =>
              let (r, s) := allocFrame s (some env)
              executeBlock fuel stmts r s
          | some other => execute fuel other env s
    | .whileS cond body => execWhile fuel cond body env s
    | .untilS cond body => execUntil fuel cond body env s
    | .ret _ value =>
      match value with
      | none => .exc (.ret .nil) s
      | some e =>
        match evaluate fuel e env s with
        | .exc ex s => .exc ex s
        | .ok v s => .exc (.ret v) s
    | .funcDef name params body _vis =>
      let (r, s) := allocFn s ⟨name, params, body, env⟩
      .ok () (envDefine s env name.lexeme (.fn r))
    | .classS name methods _vis =>
      -- visitClassStmt: define the name as nil, build the method table in
      -- declaration order, then assign the real class value.
      let s := envDefine s env name.lexeme .nil
      let (tbl, s) :=
        methods.foldl
          (fun (acc : List (String × Nat) × State) m =>
            let (tbl, s) := acc
            let (fr, s) := allocFn s ⟨m.1, m.2.1, m.2.2, env⟩
            (assocSet tbl m.1.lexeme fr, s))
          ([], s)
      let (cr, s) := allocClass s ⟨name.lexeme, tbl⟩
      match envAssign s s.frames.length env name (.cls cr) with
      | none => .exc .fuelOut s
      | some (.error m) => .exc (.rte m) s
      | some (.ok s) => .ok () s
    | .echo count body =>
      match evaluate fuel count env s with
      | .exc ex s => .exc ex s
      | .ok cv s =>
        match cv with
        | .num q =>
          let c := qtrunc q
          if c < 0 then .exc (.rte "Echo count cannot be negative.") s
          else execEcho fuel c.toNat body env s
        | _ => .exc (.rte "Echo count must be a number.") s
    | .swap left right =>
      match envGet s s.frames.length env left with
      | none => .exc .fuelOut s
      | some (.error m) => .exc (.rte m) s
      | some (.ok leftVal) =>
        match envGet s s.frames.length env right with
        | none => .exc .fuelOut s
        | some (.error m) => .exc (.rte m) s
        | some (.ok rightVal) =>
          match envAssign s s.frames.length env left rightVal with
          | none => .exc .fuelOut s
          | some (.error m) => .exc (.rte m) s
          | some (.ok s) =>
            match envAssign s s.frames.length env right leftVal with
            | none => .exc .fuelOut s
            | some (.error m) => .exc (.rte m) s
            | some (.ok s) => .ok () s
    | .maybe tryB othB =>
      let (r, s) := allocFrame s (some env)
      match executeBlock fuel tryB r s with
      | .ok _ s => .ok () s
      | .exc (.rte _) s =>
        -- catch (const std::runtime_error &): run otherwise if present,
        -- else silently continue.
        match othB with
        | some ob =>
            let (r2, s) := allocFrame s (some env)
            executeBlock fuel ob r2 s
        | none => .ok () s
      | .exc e s => .exc e s
    | .moduleS parts =>
        .ok () { s with currentModuleId := moduleIdToString parts }
    | .use parts aliasTok =>
      let moduleId := moduleIdToString parts
      match loadModule fuel moduleId s with
      | .exc e s => .exc e s
      | .ok mref s => .ok () (envDefine s env aliasTok.lexeme (.map mref))
termination_by structural fuel

/-- The statement loop shared by `executeBlock` and `Interpreter::run`. -/
def executeSeq (fuel : Nat) (stmts : List Stmt) (env : Nat) (s : State) :
    Res Unit :=
  match fuel with
  | 0 => .exc .fuelOut s
  | fuel + 1 =>
    match stmts with
    | [] => .ok () s
    | st :: rest =>
      match execute fuel st env s with
      | .exc e s => .exc e s
      | .ok _ s => executeSeq fuel rest env s
termination_by structural fuel

/-- `Interpreter::executeBlock`: run the statements under the supplied new
environment; the previous environment is restored on every exit path
(automatic here, since `env` is an argument of the caller). -/
def executeBlock (fuel : Nat) (stmts : List Stmt) (envNew : Nat) (s : State) :
    Res Unit :=
  match fuel with
  | 0 => .exc .fuelOut s
  | fuel + 1 => executeSeq fuel stmts envNew s
termination_by structural fuel

/-- The `while` loop of the `WhileStmt` branch: re-evaluate the condition
in the outer scope, run the body in a fresh per-iteration scope. -/
def execWhile (fuel : Nat) (cond : Expr) (body : List Stmt) (env : Nat)
    (s : State) : Res Unit :=
  match fuel with
  | 0 => .exc .fuelOut s
  | fuel + 1 =>
    match evaluate fuel cond env s with
    | .exc ex s => .exc ex s
    | .ok c s =>
      if isTruthy c then
        let (r, s) := allocFrame s (some env)
        match executeBlock fuel body r s with
        | .exc e s => .exc e s
        | .ok _ s => execWhile fuel cond body env s
      else .ok () s
termination_by structural fuel

/-- The `UntilStmt` branch: `while (!isTruthy(cond))`. -/
def execUntil (fuel : Nat) (cond : Expr) (body : List Stmt) (env : Nat)
    (s : State) : Res Unit :=
  match fuel with
  | 0 => .exc .fuelOut s
  | fuel + 1 =>
    match evaluate fuel cond env s with
    | .exc ex s => .exc ex s
    | .ok c s =>
      if ¬ isTruthy c then
        let (r, s) := allocFrame s (some env)
        match executeBlock fuel body r s with
        | .exc e s => .exc e s
        | .ok _ s => execUntil fuel cond body env s
      else .ok () s
termination_by structural fuel

/-- The repetition loop of the `EchoStmt` branch: `n` fresh-scoped runs of
the body. -/
def execEcho (fuel : Nat) (n : Nat) (body : List Stmt) (env : Nat)
    (s : State) : Res Unit :=
  match fuel with
  | 0 => .exc .fuelOut s
  | fuel + 1 =>
    match n with
    | 0 => .ok () s
    | n + 1 =>
      let (r, s) := allocFrame s (some env)
      match executeBlock fuel body r s with
      | .exc e s => .exc e s
      | .ok _ s => execEcho fuel n body env s
termination_by structural fuel

/-- `Interpreter::evaluate` (src/src/interpreter.cpp lines 502-762). -/
def evaluate (fuel : Nat) (e : Expr) (env : Nat) (s : State) : Res Value :=
  match fuel with
  | 0 => .exc .fuelOut s
  | fuel + 1 =>
    match e with
    | .literal l =>
      match l.kind with
      | .Number => .ok (.num l.numberValue) s
      | .String => .ok (.str l.stringValue) s
      | .Bool => .ok (.bool l.boolValue) s
      | .Nil => .ok .nil s
    | .variableE name =>
      match envGet s s.frames.length env name with
      | none => .exc .fuelOut s
      | some (.error m) => .exc (.rte m) s
      | some (.ok v) => .ok v s
    | .grouping inner => evaluate fuel inner env s
    | .unary op right =>
      match evaluate fuel right env s with
      | .exc ex s => .exc ex s
      | .ok rv s =>
        if op.type = .Minus then
          match requireNumber s rv "unary \x27-\x27" with
          | some m => .exc (.rte m) s
          | none =>
            match rv with
            | .num q => .ok (.num (-q)) s
            | _ => .exc (.rte "unreachable") s
        else if op.type = .Bang ∨ op.type = .Not then
          .ok (.bool (¬ isTruthy rv)) s
        else
          .exc (.rte ("Unknown unary operator \x27" ++ op.lexeme ++ "\x27")) s
    | .binary left op right =>
      -- short-circuit Or/And first, then the eager operators
      if op.type = .Or then
        match evaluate fuel left env s with
        | .exc ex s => .exc ex s
        | .ok lv s => if isTruthy lv then .ok lv s else evaluate fuel right env s
      else if op.type = .And then
        match evaluate fuel left env s with
        | .exc ex s => .exc ex s
        | .ok lv s => if ¬ isTruthy lv then .ok lv s else evaluate fuel right env s
      else
        match evaluate fuel left env s with
        | .exc ex s => .exc ex s
        | .ok lv s =>
          match evaluate fuel right env s with
          | .exc ex s => .exc ex s
          | .ok rv s => evalBinOp op lv rv s
    | .call callee _paren args =>
      match evaluate fuel callee env s with
      | .exc ex s => .exc ex s
      | .ok cv s =>
        match evalArgs fuel args env s with
        | .exc ex s => .exc ex s
        | .ok argv s =>
          match cv with
          | .fn _ => callFunction fuel cv argv s
          | .cls _ => callFunction fuel cv argv s
          | .native _ => callFunction fuel cv argv s
          | _ => .exc (.rte "Can only call functions and classes.") s
    | .index obj _bracket idx =>
      match evaluate fuel obj env s with
      | .exc ex s => .exc ex s
      | .ok ov s =>
        match evaluate fuel idx env s with
        | .exc ex s => .exc ex s
        | .ok iv s =>
          match ov with
          | .list r =>
            match iv with
            | .num q =>
              let i := qtrunc q
              let elems := s.lists.getD r []
              if i < 0 ∨ (elems.length : Int) ≤ i then
                .exc (.rte "List index out of bounds.") s
              else .ok (elems.getD i.toNat .nil) s
            | _ => .exc (.rte "List index must be a number.") s
          | .map r =>
            match iv with
            | .str k =>
              match assocGet (s.maps.getD r []) k with
              | some v => .ok v s
              | none => .exc (.rte ("Undefined key \x27" ++ k ++ "\x27.")) s
            | _ => .exc (.rte "Map key must be a string.") s
          | _ => .exc (.rte "Only lists and maps support subscription.") s
    | .indexSet obj _bracket idx value =>
      match evaluate fuel obj env s with
      | .exc ex s => .exc ex s
      | .ok ov s =>
        match evaluate fuel idx env s with
        | .exc ex s => .exc ex s
        | .ok iv s =>
          match evaluate fuel value env s with
          | .exc ex s => .exc ex s
          | .ok vv s =>
            match ov with
            | .list r =>
              match iv with
              | .num q =>
                let i := qtrunc q
                let elems := s.lists.getD r []
                if i < 0 ∨ (elems.length : Int) ≤ i then
                  .exc (.rte "List index out of bounds.") s
                else
                  .ok vv { s with lists := s.lists.set r (elems.set i.toNat vv) }
              | _ => .exc (.rte "List index must be a number.") s
            | .map r =>
              match iv with
              | .str k =>
                  .ok vv { s with maps := s.maps.set r (assocSet (s.maps.getD r []) k vv) }
              | _ => .exc (.rte "Map key must be a string.") s
            | _ => .exc (.rte "Only lists and maps support assignment.") s
    | .listE elements =>
      match evalArgs fuel elements env s with
      | .exc ex s => .exc ex s
      | .ok vs s =>
        let (r, s) := allocList s vs
        .ok (.list r) s
    | .get obj name =>
      match evaluate fuel obj env s with
      | .exc ex s => .exc ex s
      | .ok ov s =>
        match ov with
        | .map r =>
          match assocGet (s.maps.getD r []) name.lexeme with
          | some v => .ok v s
          | none =>
              .exc (.rte ("Module has no exported member \x27" ++ name.lexeme ++
                          "\x27.")) s
        | .inst r =>
          let instObj := s.insts.getD r default
          match assocGet instObj.fields name.lexeme with
          | some v => .ok v s
          | none =>
            match (s.classes.getD instObj.klass default).findMethod name.lexeme with
            | some mref =>
              -- bind: fresh environment with this = the instance, parented
              -- at the method closure; a fresh Function value shares the
              -- body but uses the bound closure.
              let m := s.fns.getD mref default
              let (er, s) := allocFrame s (some m.closure)
              let s := envDefine s er "this" (.inst r)
              let (br, s) := allocFn s { m with closure := er }
              .ok (.fn br) s
            | none =>
                .exc (.rte ("Undefined property \x27" ++ name.lexeme ++ "\x27.")) s
        | _ => .exc (.rte "Only instances and modules have properties.") s
    | .set obj name value =>
      match evaluate fuel obj env s with
      | .exc ex s => .exc ex s
      | .ok ov s =>
        match ov with
        | .inst r =>
          match evaluate fuel value env s with
          | .exc ex s => .exc ex s
          | .ok vv s =>
            let instObj := s.insts.getD r default
            .ok vv
              { s with insts :=
                  s.insts.set r { instObj with fields := assocSet instObj.fields name.lexeme vv } }
        | _ => .exc (.rte "Only instances have properties.") s
    | .thisE keyword =>
      match envGet s s.frames.length env keyword with
      | none => .exc .fuelOut s
      | some (.error m) => .exc (.rte m) s
      | some (.ok v) => .ok v s
    | .mapE keys values =>
      let (r, s) := allocMap s []
      match evalMapPairs fuel keys values r env s with
      | .exc ex s => .exc ex s
      | .ok _ s => .ok (.map r) s
termination_by structural fuel

/-- Argument/element evaluation loop (`for (a : c->args) ...`). -/
def evalArgs (fuel : Nat) (es : List Expr) (env : Nat) (s : State) :
    Res (List Value) :=
  match fuel with
  | 0 => .exc .fuelOut s
  | fuel + 1 =>
    match es with
    | [] => .ok [] s
    | e :: rest =>
      match evaluate fuel e env s with
      | .exc ex s => .exc ex s
      | .ok v s =>
        match evalArgs fuel rest env s with
        | .exc ex s => .exc ex s
        | .ok vs s => .ok (v :: vs) s
termination_by structural fuel

/-- The `MapExpr` entry loop: evaluate key then value, require a string
key, insert into the map object under construction. -/
def evalMapPairs (fuel : Nat) (keys : List Expr) (values : List Expr)
    (mref : Nat) (env : Nat) (s : State) : Res Unit :=
  match fuel with
  | 0 => .exc .fuelOut s
  | fuel + 1 =>
    match keys, values with
    | k :: ks, v :: vs =>
      match evaluate fuel k env s with
      | .exc ex s => .exc ex s
      | .ok kv s =>
        match evaluate fuel v env s with
        | .exc ex s => .exc ex s
        | .ok vv s =>
          match kv with
          | .str key =>
              evalMapPairs fuel ks vs mref env
                { s with maps := s.maps.set mref (assocSet (s.maps.getD mref []) key vv) }
          | _ => .exc (.rte "Map keys must be strings.") s
    | _, _ => .ok () s
termination_by structural fuel

/-- `Interpreter::callFunction` (src/src/interpreter.cpp lines 420-501):
the single polymorphic call, dispatching on the callee tag. -/
def callFunction (fuel : Nat) (callee : Value) (args : List Value)
    (s : State) : Res Value :=
  match fuel with
  | 0 => .exc .fuelOut s
  | fuel + 1 =>
    match callee with
    | .fn fref =>
      let f := s.fns.getD fref default
      if args.length ≠ f.params.length then
        .exc (.rte (arityMsg f.params.length args.length)) s
      else
        let (er, s) := allocFrame s (some f.closure)
        let s := defineParams s er f.params args
        match executeBlock fuel f.body er s with
        | .ok _ s => .ok .nil s
        | .exc (.ret v) s => .ok v s
        | .exc e s => .exc e s
    | .native nref =>
      let n := s.natives.getD nref default
      if ¬ n.variadic ∧ args.length ≠ n.arity then
        .exc (.rte (arityMsg n.arity args.length)) s
      else runNative n.func args s
    | .cls cref =>
      -- Create the instance first, then run init (if any) with this bound;
      -- any value init returns is discarded and the instance is the result.
      let (ir, s) := allocInst s ⟨cref, []⟩
      match (s.classes.getD cref default).findMethod "init" with
      | some mref =>
        let initFn := s.fns.getD mref default
        let (er, s) := allocFrame s (some initFn.closure)
        let s := envDefine s er "this" (.inst ir)
        if args.length ≠ initFn.params.length then
          .exc (.rte (arityMsg initFn.params.length args.length)) s
        else
          let s := defineParams s er initFn.params args
          match executeBlock fuel initFn.body er s with
          | .ok _ s => .ok (.inst ir) s
          | .exc (.ret _) s => .ok (.inst ir) s
          | .exc e s => .exc e s
      | none =>
        if args.length ≠ 0 then .exc (.rte (arityMsg 0 args.length)) s
        else .ok (.inst ir) s
    | _ => .exc (.rte "Can only call functions and classes.") s
termination_by structural fuel

/-- `Interpreter::loadModule` (src/src/interpreter.cpp lines 829-918):
cache check, cycle check, loading-set insert, path resolution, read, lex,
parse, isolated execution with export collection, cache fill and
loading-set erase, native injection.  The loading-set erases appear exactly
where the source erases. -/
def loadModule (fuel : Nat) (moduleId : String) (s : State) : Res Nat :=
  match fuel with
  | 0 => .exc .fuelOut s
  | fuel + 1 =>
    match assocGet s.moduleCache moduleId with
    | some cached => .ok cached s
    | none =>
      if s.modulesLoading.contains moduleId then
        .exc (.rte ("Cyclic import detected: " ++ moduleId)) s
      else
        let s := { s with modulesLoading := s.modulesLoading ++ [moduleId] }
        match resolveModulePath s moduleId with
        | .error m => .exc (.rte m) s
        | .ok modulePath =>
          match assocGet s.fsRead modulePath with
          | none =>
              .exc (.rte ("Could not open module file: " ++ modulePath))
                { s with modulesLoading := s.modulesLoading.erase moduleId }
          | some source =>
            match scanTokens source with
            | .error m => .exc (.rte m) s
            | .ok tokens =>
              match parse tokens with
              | none => .exc .fuelOut s
              | some program =>
                let savedExports := s.currentExports
                let savedModuleId := s.currentModuleId
                let savedInModuleLoad := s.inModuleLoad
                let (menv, s) := allocFrame s (some s.globals)
                let (eref, s) := allocMap s []
                let s := { s with currentExports := some eref,
                                  currentModuleId := "", inModuleLoad := true }
                match execModule fuel program menv s with
                | .exc e s =>
                    .exc e
                      { s with currentExports := savedExports,
                               currentModuleId := savedModuleId,
                               inModuleLoad := savedInModuleLoad,
                               modulesLoading := s.modulesLoading.erase moduleId }
                | .ok _ s =>
                  let s := { s with
                              moduleCache := assocSet s.moduleCache moduleId eref,
                              moduleAstCache := assocSet s.moduleAstCache moduleId program,
                              currentExports := savedExports,
                              currentModuleId := savedModuleId,
                              inModuleLoad := savedInModuleLoad }
                  let s := { s with modulesLoading := s.modulesLoading.erase moduleId }
                  .ok eref (injectNativeNatives moduleId eref s)
termination_by structural fuel

/-- The module-execution loop of `loadModule`: run each top-level
statement, then copy the binding of an `open` def/class into the export
map. -/
def execModule (fuel : Nat) (stmts : List Stmt) (env : Nat) (s : State) :
    Res Unit :=
  match fuel with
  | 0 => .exc .fuelOut s
  | fuel + 1 =>
    match stmts with
    | [] => .ok () s
    | st :: rest =>
      match execute fuel st env s with
      | .exc e s => .exc e s
      | .ok _ s =>
        match exportIfOpen st env s with
        | .exc e s => .exc e s
        | .ok _ s => execModule fuel rest env s
termination_by structural fuel
end

/-- `Interpreter::run`: execute the program; a `ReturnSignal` escaping to
the top level becomes the fatal runtime error. -/
def run (fuel : Nat) (program : List Stmt) (env : Nat) (s : State) :
    Res Unit :=
  match executeSeq fuel program env s with
  | .exc (.ret _) s => .exc (.rte "Return used outside of a function.") s
  | r => r

/-- The `Interpreter` constructor: fresh global environment with the five
global natives defined. -/
def initialState : State :=
  let s : State := {}
  let (r0, s) := allocNative s ⟨"len", .len, 1, false⟩
  let s := envDefine s 0 "len" (.native r0)
  let (r1, s) := allocNative s ⟨"push", .push, 2, false⟩
  let s := envDefine s 0 "push" (.native r1)
  let (r2, s) := allocNative s ⟨"pop", .pop, 1, false⟩
  let s := envDefine s 0 "pop" (.native r2)
  let (r3, s) := allocNative s ⟨"keys", .keys, 1, false⟩
  let s := envDefine s 0 "keys" (.native r3)
  let (r4, s) := allocNative s ⟨"remove", .remove, 2, false⟩
  let s := envDefine s 0 "remove" (.native r4)
  s

/-! ### Association-list and environment-chain lemmas. -/

theorem assocGet_assocSet_self {α : Type} (l : List (String × α)) (k : String)
    (v : α) : assocGet (assocSet l k v) k = some v := by
  induction l with
  | nil => simp [assocSet, assocGet]
  | cons hd tl ih =>
    by_cases h : hd.1 = k
    · simp [assocSet, assocGet, h]
    · simp [assocSet, assocGet, h, ih]

theorem assocGet_assocSet_ne {α : Type} (l : List (String × α)) {k m : String}
    (v : α) (h : m ≠ k) : assocGet (assocSet l k v) m = assocGet l m := by
  induction l with
  | nil => simp [assocSet, assocGet, Ne.symm h]
  | cons hd tl ih =>
    by_cases hk : hd.1 = k
    · simp [assocSet, assocGet, hk, Ne.symm h]
    · simp [assocSet, assocGet, hk, ih]

theorem getD_set_self {α : Type} (l : List α) (i : Nat) (a d : α)
    (h : i < l.length) : (l.set i a).getD i d = a := by
  simp [List.getD_eq_getElem?_getD, List.getElem?_set_self', h,
        List.getElem?_eq_getElem]

theorem getD_set_ne {α : Type} (l : List α) {i j : Nat} (a d : α)
    (h : i ≠ j) : (l.set i a).getD j d = l.getD j d := by
  simp [List.getD_eq_getElem?_getD, List.getElem?_set_ne h]

/-- `Environment::assign` mutates exactly one frame: the first on the walk
that declares the name; everything else in the state is untouched. -/
theorem envAssign_spec (s : State) (f : Nat) (r : Nat) (n : Token) (w : Value)
    (s' : State) (h : envAssign s f r n w = some (.ok s')) :
    ∃ j, j < s.frames.length ∧
      (assocGet (s.frames.getD j default).values n.lexeme).isSome ∧
      s' = setFrame s j ⟨assocSet (s.frames.getD j default).values n.lexeme w,
                         (s.frames.getD j default).enclosing⟩ := by
  induction f generalizing r with
  | zero => simp [envAssign] at h
  | succ f ih =>
    rw [envAssign] at h
    rcases hg : assocGet (s.frames.getD r default).values n.lexeme with _ | v0
    · rw [hg] at h
      rcases he : (s.frames.getD r default).enclosing with _ | p
      · rw [he] at h; simp at h
      · rw [he] at h; exact ih p h
    · rw [hg] at h
      simp only [Option.some.injEq, Except.ok.injEq] at h
      refine ⟨r, ?_, by rw [hg]; rfl, ?_⟩
      · by_contra hlt
        push_neg at hlt
        have : s.frames.getD r default = default := by
          simp [List.getD_eq_getElem?_getD, List.getElem?_eq_none hlt]
        rw [this] at hg; simp [assocGet] at hg
      · exact h.symm

theorem setFrame_frames_length (s : State) (j : Nat) (fr : Frame) :
    (setFrame s j fr).frames.length = s.frames.length := by
  simp [setFrame]

theorem envAssign_frames_length (s : State) (f : Nat) (r : Nat) (n : Token)
    (w : Value) (s' : State) (h : envAssign s f r n w = some (.ok s')) :
    s'.frames.length = s.frames.length := by
  obtain ⟨j, _, _, hs⟩ := envAssign_spec s f r n w s' h
  rw [hs]; exact setFrame_frames_length ..

/-- Reading the assigned name back, from the same root with the same fuel,
yields the new value. -/
theorem envGet_after_envAssign_self (s : State) (f : Nat) (r : Nat)
    (n : Token) (w : Value) (s' : State)
    (h : envAssign s f r n w = some (.ok s')) :
    envGet s' f r n = some (.ok w) := by
  induction f generalizing r with
  | zero => simp [envAssign] at h
  | succ f ih =>
    rw [envAssign] at h
    rcases hg : assocGet (s.frames.getD r default).values n.lexeme with _ | v0
    · rw [hg] at h
      rcases he : (s.frames.getD r default).enclosing with _ | p
      · rw [he] at h; simp at h
      · rw [he] at h
        obtain ⟨j, hj, hjs, hs⟩ := envAssign_spec s f p n w s' h
        have hjr : j ≠ r := by
          intro hjr; rw [hjr, hg] at hjs; simp at hjs
        have hfr : s'.frames.getD r default = s.frames.getD r default := by
          rw [hs]; simpa [setFrame] using getD_set_ne s.frames _ _ hjr
        rw [envGet, hfr, hg, he]
        exact ih p h
    · rw [hg] at h
      simp only [Option.some.injEq, Except.ok.injEq] at h
      have hr : r < s.frames.length := by
        by_contra hlt
        push_neg at hlt
        have : s.frames.getD r default = default := by
          simp [List.getD_eq_getElem?_getD, List.getElem?_eq_none hlt]
        rw [this] at hg; simp [assocGet] at hg
      rw [envGet, ← h]
      have : (setFrame s r
          ⟨assocSet (s.frames.getD r default).values n.lexeme w,
           (s.frames.getD r default).enclosing⟩).frames.getD r default =
          ⟨assocSet (s.frames.getD r default).values n.lexeme w,
           (s.frames.getD r default).enclosing⟩ := by
        simpa [setFrame] using getD_set_self s.frames r _ default hr
      rw [this]
      simp [assocGet_assocSet_self]

/-- Assigning one name leaves the lookup of any other name, from any root
with any fuel, unchanged. -/
theorem envGet_after_envAssign_other (s : State) (f : Nat) (r : Nat)
    (n : Token) (w : Value) (s' : State)
    (h : envAssign s f r n w = some (.ok s')) (m : Token)
    (hne : m.lexeme ≠ n.lexeme) (f' r' : Nat) :
    envGet s' f' r' m = envGet s f' r' m := by
  obtain ⟨j, hj, hjs, hs⟩ := envAssign_spec s f r n w s' h
  clear h
  induction f' generalizing r' with
  | zero => simp [envGet]
  | succ f' ih =>
    have hvals : assocGet (s'.frames.getD r' default).values m.lexeme =
        assocGet (s.frames.getD r' default).values m.lexeme := by
      by_cases hrj : j = r'
      · subst hrj
        have : s'.frames.getD j default =
            ⟨assocSet (s.frames.getD j default).values n.lexeme w,
             (s.frames.getD j default).enclosing⟩ := by
          rw [hs]; simpa [setFrame] using getD_set_self s.frames j _ default hj
        rw [this]
        exact assocGet_assocSet_ne _ _ hne
      · have : s'.frames.getD r' default = s.frames.getD r' default := by
          rw [hs]; simpa [setFrame] using getD_set_ne s.frames _ _ hrj
        rw [this]
    have hencl : (s'.frames.getD r' default).enclosing =
        (s.frames.getD r' default).enclosing := by
      by_cases hrj : j = r'
      · subst hrj
        have : s'.frames.getD j default =
            ⟨assocSet (s.frames.getD j default).values n.lexeme w,
             (s.frames.getD j default).enclosing⟩ := by
          rw [hs]; simpa [setFrame] using getD_set_self s.frames j _ default hj
        rw [this]
      · have : s'.frames.getD r' default = s.frames.getD r' default := by
          rw [hs]; simpa [setFrame] using getD_set_ne s.frames _ _ hrj
        rw [this]
    rw [envGet, envGet, hvals, hencl]
    rcases assocGet (s.frames.getD r' default).values m.lexeme with _ | v
    · rcases (s.frames.getD r' default).enclosing with _ | p
      · rfl
      · exact ih p
    · rfl

/-- A successful lookup means the assignment of that name succeeds too
(the walk finds the same first declaring frame). -/
theorem envAssign_succeeds_of_envGet (s : State) (f : Nat) (r : Nat)
    (n : Token) (v : Value) (h : envGet s f r n = some (.ok v)) (w : Value) :
    ∃ s', envAssign s f r n w = some (.ok s') := by
  induction f generalizing r with
  | zero => simp [envGet] at h
  | succ f ih =>
    rw [envGet] at h
    rcases hg : assocGet (s.frames.getD r default).values n.lexeme with _ | v0
    · rw [hg] at h
      rcases he : (s.frames.getD r default).enclosing with _ | p
      · rw [he] at h; simp at h
      · rw [he] at h
        obtain ⟨s', hs'⟩ := ih p h
        exact ⟨s', by rw [envAssign, hg, he]; exact hs'⟩
    · exact ⟨_, by rw [envAssign, hg]⟩

/-- Success of `Environment::get` depends on the token only through its
lexeme (the line is only used in the error message). -/
theorem envGet_ok_congr (s : State) (f : Nat) (r : Nat) (x y : Token)
    (hlex : x.lexeme = y.lexeme) (v : Value)
    (h : envGet s f r x = some (.ok v)) : envGet s f r y = some (.ok v) := by
  induction f generalizing r with
  | zero => simp [envGet] at h
  | succ f ih =>
    rw [envGet] at h
    rw [envGet, ← hlex]
    rcases hg : assocGet (s.frames.getD r default).values x.lexeme with _ | v0
    · rw [hg] at h
      rcases he : (s.frames.getD r default).enclosing with _ | p
      · rw [he] at h; simp at h
      · rw [he] at h; exact ih p h
    · rw [hg] at h; exact h

/-! ### C5: the swap statement. -/

/-- C5: for a swap statement `x <-> y` whose two names both resolve in the
accessible environment chain, execution reads both old values first and
then reassigns both, so afterwards `x` holds `y`'s old value and `y` holds
`x`'s old value (for `x = y` the two hypotheses force `vx = vy`, so the
self-swap leaves the value unchanged). -/
theorem swap_exchanges_values (fuel : Nat) (s : State) (env : Nat)
    (x y : Token) (vx vy : Value)
    (hx : envGet s s.frames.length env x = some (.ok vx))
    (hy : envGet s s.frames.length env y = some (.ok vy)) :
    ∃ s', execute (fuel + 1) (.swap x y) env s = .ok () s' ∧
      s'.frames.length = s.frames.length ∧
      envGet s' s'.frames.length env x = some (.ok vy) ∧
      envGet s' s'.frames.length env y = some (.ok vx) := by
  obtain ⟨s1, h1⟩ := envAssign_succeeds_of_envGet s _ env x vx hx vy
  have len1 : s1.frames.length = s.frames.length :=
    envAssign_frames_length s _ env x vy s1 h1
  have hx1 : envGet s1 s.frames.length env x = some (.ok vy) :=
    envGet_after_envAssign_self s _ env x vy s1 h1
  have hgy1 : envGet s1 s1.frames.length env y = some (.ok vy) := by
    by_cases hlex : y.lexeme = x.lexeme
    · rw [len1]
      exact envGet_ok_congr s1 _ env x y (hlex.symm) vy hx1
    · rw [len1,
          envGet_after_envAssign_other s _ env x vy s1 h1 y hlex s.frames.length env]
      exact hy
  obtain ⟨s2, h2⟩ := envAssign_succeeds_of_envGet s1 _ env y vy hgy1 vx
  have len2 : s2.frames.length = s1.frames.length :=
    envAssign_frames_length s1 _ env y vx s2 h2
  have hy2 : envGet s2 s1.frames.length env y = some (.ok vx) :=
    envGet_after_envAssign_self s1 _ env y vx s2 h2
  have hx2 : envGet s2 s2.frames.length env x = some (.ok vy) := by
    by_cases hlex : x.lexeme = y.lexeme
    · -- self swap: the two reads are of the same binding, so vx = vy
      have hvxy : vx = vy := by
        have hcongr := envGet_ok_congr s _ env x y hlex vx hx
        rw [hcongr] at hy
        simpa using hy
      rw [len2, ← hvxy]
      exact envGet_ok_congr s2 _ env y x (hlex.symm) vx hy2
    · rw [len2,
          envGet_after_envAssign_other s1 s1.frames.length env y vx s2 h2 x hlex
            s1.frames.length env, len1]
      exact hx1
  refine ⟨s2, ?_, by rw [len2, len1], hx2, by rw [len2]; exact hy2⟩
  simp only [execute, hx, hy, h1, h2]

/-! ### C2 / C8: the maybe statement, runtime errors and the return
signal. -/

/-- C2: any runtime error raised anywhere while executing a maybe-block's
try block (in its fresh child scope) is caught by the maybe statement: with
an otherwise block present the whole statement behaves as exactly one run
of that block in its own fresh child scope; with no otherwise block the
error is discarded and the statement completes normally; and a try block
that completes normally never triggers the otherwise block. -/
theorem maybe_catches_any_runtime_error (fuel : Nat) (tryB : List Stmt)
    (env : Nat) (s : State) :
    (∀ m s2, executeBlock fuel tryB (allocFrame s (some env)).1
        (allocFrame s (some env)).2 = .exc (.rte m) s2 →
      (∀ ob, execute (fuel + 1) (.maybe tryB (some ob)) env s =
          executeBlock fuel ob (allocFrame s2 (some env)).1
            (allocFrame s2 (some env)).2) ∧
      execute (fuel + 1) (.maybe tryB none) env s = .ok () s2) ∧
    (∀ u s2, executeBlock fuel tryB (allocFrame s (some env)).1
        (allocFrame s (some env)).2 = .ok u s2 →
      ∀ othB, execute (fuel + 1) (.maybe tryB othB) env s = .ok () s2) := by
  constructor
  · intro m s2 htry
    constructor
    · intro ob
      simp only [execute, allocFrame] at htry ⊢
      rw [htry]
    · simp only [execute, allocFrame] at htry ⊢
      rw [htry]
  · intro u s2 htry othB
    simp only [execute, allocFrame] at htry ⊢
    rw [htry]

/-- C8: a return statement inside a maybe try block is not intercepted:
the `ReturnSignal` is not a `std::runtime_error`, so the maybe statement
re-raises it unchanged (the otherwise block never runs), the nearest
enclosing function-call boundary converts it into the call's result, and
at top level `run` turns it into the fatal
"Return used outside of a function." error. -/
theorem return_passes_through_maybe (fuel : Nat) :
    (∀ (tryB : List Stmt) (othB : Option (List Stmt)) (env : Nat) (s : State)
        (v : Value) (s2 : State),
      executeBlock fuel tryB (allocFrame s (some env)).1
          (allocFrame s (some env)).2 = .exc (.ret v) s2 →
      execute (fuel + 1) (.maybe tryB othB) env s = .exc (.ret v) s2) ∧
    (∀ (fref : Nat) (args : List Value) (s : State) (f : FunctionObj)
        (v : Value) (s3 : State),
      s.fns.getD fref default = f →
      args.length = f.params.length →
      executeBlock fuel f.body (allocFrame s (some f.closure)).1
          (defineParams (allocFrame s (some f.closure)).2
            (allocFrame s (some f.closure)).1 f.params args) =
        .exc (.ret v) s3 →
      callFunction (fuel + 1) (.fn fref) args s = .ok v s3) ∧
    (∀ (program : List Stmt) (env : Nat) (s : State) (v : Value) (s' : State),
      executeSeq fuel program env s = .exc (.ret v) s' →
      run fuel program env s = .exc (.rte "Return used outside of a function.") s') := by
  refine ⟨?_, ?_, ?_⟩
  · intro tryB othB env s v s2 htry
    simp only [execute, allocFrame] at htry ⊢
    rw [htry]
  · intro fref args s f v s3 hf hlen hbody
    simp only [callFunction, hf, hlen, allocFrame] at hbody ⊢
    simp only [if_neg (by omega : ¬ (f.params.length ≠ f.params.length))]
    rw [hbody]
  · intro program env s v s' hseq
    simp only [run, hseq]

/-! ### C10: short-circuit `or` / `and` return the deciding operand. -/

/-- C10: the short-circuit operators yield the deciding operand's value
itself, not a Boolean: when the left operand of `or` is truthy (of `and`,
falsy) its value and state are the whole expression's result and the right
operand is never evaluated; otherwise the expression's result is exactly
the evaluation of the right operand. -/
theorem or_and_yield_operand_values (fuel : Nat) (a b : Expr) (op : Token)
    (env : Nat) (s : State) (va : Value) (s1 : State)
    (ha : evaluate fuel a env s = .ok va s1) :
    (op.type = .Or →
      (isTruthy va = true →
        evaluate (fuel + 1) (.binary a op b) env s = .ok va s1) ∧
      (isTruthy va = false →
        evaluate (fuel + 1) (.binary a op b) env s = evaluate fuel b env s1)) ∧
    (op.type = .And →
      (isTruthy va = false →
        evaluate (fuel + 1) (.binary a op b) env s = .ok va s1) ∧
      (isTruthy va = true →
        evaluate (fuel + 1) (.binary a op b) env s = evaluate fuel b env s1)) := by
  constructor
  · intro hop
    constructor <;> intro htru <;>
      simp [evaluate, hop, ha, htru]
  · intro hop
    have hnotor : op.type ≠ .Or := by rw [hop]; intro hc; cases hc
    constructor <;> intro htru <;>
      simp [evaluate, hop, hnotor, ha, htru]

/-! ### C9: list indexing truncates toward zero, then bounds-checks. -/

/-- C9: list indexing (read and write) first truncates the Number index
toward zero (`static_cast<int>`) and only then bounds-checks it, raising
"List index out of bounds." exactly when the truncated index is negative
or not below the list length; a non-integer index silently accesses the
truncated position. -/
theorem list_index_truncates_then_bounds_checks (fuel : Nat)
    (obj idxE valE : Expr) (bracket : Token) (env : Nat) (s s1 s2 : State)
    (r : Nat) (q : ℚ)
    (hobj : evaluate fuel obj env s = .ok (.list r) s1)
    (hidx : evaluate fuel idxE env s1 = .ok (.num q) s2) :
    (evaluate (fuel + 1) (.index obj bracket idxE) env s =
      if qtrunc q < 0 ∨ ((s2.lists.getD r []).length : Int) ≤ qtrunc q then
        .exc (.rte "List index out of bounds.") s2
      else .ok ((s2.lists.getD r []).getD (qtrunc q).toNat .nil) s2) ∧
    (∀ (vv : Value) (s3 : State),
      evaluate fuel valE env s2 = .ok vv s3 →
      evaluate (fuel + 1) (.indexSet obj bracket idxE valE) env s =
        if qtrunc q < 0 ∨ ((s3.lists.getD r []).length : Int) ≤ qtrunc q then
          .exc (.rte "List index out of bounds.") s3
        else
          .ok vv { s3 with lists :=
                     s3.lists.set r ((s3.lists.getD r []).set (qtrunc q).toNat vv) }) := by
  constructor
  · simp only [evaluate, hobj, hidx]
  · intro vv s3 hval
    simp only [evaluate, hobj, hidx, hval]

/-! ### C1: invoking a class always yields the new instance. -/

/-- C1: calling a class value constructs a fresh Instance and returns it:
with no `init` method, zero arguments are required (otherwise an
arity runtime error); with an `init` method, the argument count must equal
`init`'s declared parameter count exactly (otherwise an arity runtime
error), and whether `init`'s body finishes normally or via a return
statement, the produced value is discarded and the call yields the new
Instance. -/
theorem class_call_yields_new_instance (fuel : Nat) (s : State) (cref : Nat)
    (args : List Value) :
    ((s.classes.getD cref default).findMethod "init" = none →
      (args = [] →
        callFunction (fuel + 1) (.cls cref) args s =
          .ok (.inst s.insts.length) (allocInst s ⟨cref, []⟩).2) ∧
      (args ≠ [] →
        callFunction (fuel + 1) (.cls cref) args s =
          .exc (.rte (arityMsg 0 args.length)) (allocInst s ⟨cref, []⟩).2)) ∧
    (∀ mref initFn,
      (s.classes.getD cref default).findMethod "init" = some mref →
      s.fns.getD mref default = initFn →
      (args.length ≠ initFn.params.length →
        ∃ serr, callFunction (fuel + 1) (.cls cref) args s =
          .exc (.rte (arityMsg initFn.params.length args.length)) serr) ∧
      (args.length = initFn.params.length →
        (∀ u s4,
          executeBlock fuel initFn.body
              (allocFrame (allocInst s ⟨cref, []⟩).2 (some initFn.closure)).1
              (defineParams
                (envDefine (allocFrame (allocInst s ⟨cref, []⟩).2 (some initFn.closure)).2
                  (allocFrame (allocInst s ⟨cref, []⟩).2 (some initFn.closure)).1
                  "this" (.inst s.insts.length))
                (allocFrame (allocInst s ⟨cref, []⟩).2 (some initFn.closure)).1
                initFn.params args) = .ok u s4 →
          callFunction (fuel + 1) (.cls cref) args s = .ok (.inst s.insts.length) s4) ∧
        (∀ v s4,
          executeBlock fuel initFn.body
              (allocFrame (allocInst s ⟨cref, []⟩).2 (some initFn.closure)).1
              (defineParams
                (envDefine (allocFrame (allocInst s ⟨cref, []⟩).2 (some initFn.closure)).2
                  (allocFrame (allocInst s ⟨cref, []⟩).2 (some initFn.closure)).1
                  "this" (.inst s.insts.length))
                (allocFrame (allocInst s ⟨cref, []⟩).2 (some initFn.closure)).1
                initFn.params args) = .exc (.ret v) s4 →
          callFunction (fuel + 1) (.cls cref) args s = .ok (.inst s.insts.length) s4))) := by
  constructor
  · intro hnone
    rw [show s.classes.getD cref default = s.classes[cref]?.getD default from
          List.getD_eq_getElem?_getD ..] at hnone
    constructor
    · intro hargs
      subst hargs
      simp [callFunction, allocInst, hnone]
    · intro hargs
      have : args.length ≠ 0 := by
        intro hc; exact hargs (List.length_eq_zero.mp hc)
      simp [callFunction, allocInst, hnone, this]
  · intro mref initFn hm hf
    rw [show s.classes.getD cref default = s.classes[cref]?.getD default from
          List.getD_eq_getElem?_getD ..] at hm
    rw [show s.fns.getD mref default = s.fns[mref]?.getD default from
          List.getD_eq_getElem?_getD ..] at hf
    constructor
    · intro hne
      refine ⟨envDefine (allocFrame (allocInst s ⟨cref, []⟩).2 (some initFn.closure)).2
          (allocFrame (allocInst s ⟨cref, []⟩).2 (some initFn.closure)).1 "this"
          (.inst s.insts.length), ?_⟩
      simp [callFunction, allocInst, allocFrame, envDefine, setFrame, hm, hf, hne]
    · intro hlen
      constructor
      · intro u s4 hrun
        simp [callFunction, allocInst, allocFrame, hm, hf, hlen] at hrun ⊢
        rw [hrun]
      · intro v s4 hrun
        simp [callFunction, allocInst, allocFrame, hm, hf, hlen] at hrun ⊢
        rw [hrun]

/-! ### C3: module bodies execute at most once per interpreter. -/

/-- C3: a cache hit returns the cached export map with the state completely
unchanged (so nothing is read, lexed, parsed or executed); every successful
load leaves the export map in the cache under its moduleId; hence any
follow-up `loadModule` — and any follow-up `use` statement, which merely
binds the cached map to its alias — returns the cached map without
re-executing the module body. -/
theorem module_body_runs_at_most_once :
    (∀ (fuel : Nat) (moduleId : String) (r : Nat) (s : State),
      assocGet s.moduleCache moduleId = some r →
      loadModule (fuel + 1) moduleId s = .ok r s) ∧
    (∀ (fuel : Nat) (moduleId : String) (r : Nat) (s s' : State),
      loadModule fuel moduleId s = .ok r s' →
      assocGet s'.moduleCache moduleId = some r) ∧
    (∀ (fuel fuel' : Nat) (moduleId : String) (r : Nat) (s s' : State),
      loadModule fuel moduleId s = .ok r s' →
      loadModule (fuel' + 1) moduleId s' = .ok r s') ∧
    (∀ (fuel : Nat) (parts : List Token) (aliasTok : Token) (env : Nat)
        (s : State) (r : Nat),
      assocGet s.moduleCache (moduleIdToString parts) = some r →
      execute (fuel + 2) (.use parts aliasTok) env s =
        .ok () (envDefine s env aliasTok.lexeme (.map r))) := by
  have hhit : ∀ (fuel : Nat) (moduleId : String) (r : Nat) (s : State),
      assocGet s.moduleCache moduleId = some r →
      loadModule (fuel + 1) moduleId s = .ok r s := by
    intro fuel moduleId r s h
    rw [loadModule, h]
  have hcaches : ∀ (fuel : Nat) (moduleId : String) (r : Nat) (s s' : State),
      loadModule fuel moduleId s = .ok r s' →
      assocGet s'.moduleCache moduleId = some r := by
    intro fuel moduleId r s s' h
    match fuel with
    | 0 => simp [loadModule] at h
    | fuel + 1 =>
      rw [loadModule] at h
      rcases hc : assocGet s.moduleCache moduleId with _ | cached
      · rw [hc] at h
        dsimp only [allocFrame, allocMap] at h
        repeat'
          first
          | exact Res.noConfusion h
          | split at h
          | dsimp only [allocFrame, allocMap] at h
        cases h
        dsimp only [injectNativeNatives, nativeCatalog, List.foldl]
        exact assocGet_assocSet_self ..
      · rw [hc] at h
        dsimp only [] at h
        cases h
        exact hc
  refine ⟨hhit, hcaches, ?_, ?_⟩
  · intro fuel fuel' moduleId r s s' h
    exact hhit fuel' moduleId r s' (hcaches fuel moduleId r s s' h)
  · intro fuel parts aliasTok env s r h
    have hload := hhit fuel (moduleIdToString parts) r s h
    simp only [execute, hload]

/-! ### C4: failed loads must leave the loading set clean — the code does
not, for path-resolution (and lex) failures. -/

/-- C4: loading a module whose file does not exist raises the
module-file-not-found error but leaves the id in the "currently loading"
set (`resolveModulePath` throws after the `modulesLoading_.insert` with no
erase on that path), so retrying the same id spuriously reports a cyclic
import. -/
theorem loadModule_failure_leaks_loading_set :
    loadModule 5 "@std.w" { stdlibRoot := "std" } =
      .exc (.rte "Module file not found: std/w.lu (for module @std.w)")
        { stdlibRoot := "std", modulesLoading := ["@std.w"] } ∧
    loadModule 5 "@std.w" { stdlibRoot := "std", modulesLoading := ["@std.w"] } =
      .exc (.rte "Cyclic import detected: @std.w")
        { stdlibRoot := "std", modulesLoading := ["@std.w"] } := by
  constructor <;> rfl

/-! ### C6: the keyword table and the module keywords. -/

/-- A successful association-list lookup returns a stored pair. -/
theorem assocGet_mem {α : Type} (l : List (String × α)) (k : String) (v : α)
    (h : assocGet l k = some v) : (k, v) ∈ l := by
  induction l with
  | nil => simp [assocGet] at h
  | cons hd tl ih =>
    rw [assocGet] at h
    split at h
    · cases h
      rename_i heq
      have hhd : (k, hd.2) = hd := by rw [← heq]
      rw [hhd]
      exact List.mem_cons_self _ _
    · exact List.mem_cons_of_mem _ (ih h)

/-- C6: the lexer classifies an identifier-shaped lexeme as a keyword
exactly when it is in `kKeywords` — but that table does not contain
`module`, `use`, `as`, `open` or `closed`, so each of those five inputs
lexes to an `Identifier` token rather than to its dedicated keyword
kind. -/
theorem module_keywords_lex_as_identifiers :
    (∀ (text : String) (line : Nat),
      ((identifierOrKeyword text line).type = .Identifier ↔
        assocGet kKeywords text = none)) ∧
    assocGet kKeywords "module" = none ∧
    assocGet kKeywords "use" = none ∧
    assocGet kKeywords "as" = none ∧
    assocGet kKeywords "open" = none ∧
    assocGet kKeywords "closed" = none ∧
    scanTokens "module" = .ok [⟨.Identifier, "module", 1⟩, ⟨.Eof, "", 1⟩] ∧
    scanTokens "use" = .ok [⟨.Identifier, "use", 1⟩, ⟨.Eof, "", 1⟩] ∧
    scanTokens "as" = .ok [⟨.Identifier, "as", 1⟩, ⟨.Eof, "", 1⟩] ∧
    scanTokens "open" = .ok [⟨.Identifier, "open", 1⟩, ⟨.Eof, "", 1⟩] ∧
    scanTokens "closed" = .ok [⟨.Identifier, "closed", 1⟩, ⟨.Eof, "", 1⟩] := by
  refine ⟨?_, rfl, rfl, rfl, rfl, rfl, rfl, rfl, rfl, rfl, rfl⟩
  intro text line
  rw [identifierOrKeyword]
  rcases hg : assocGet kKeywords text with _ | t
  · simp
  · have hmem := assocGet_mem kKeywords text t hg
    have ht : t ≠ .Identifier := by
      have hall : ∀ p ∈ kKeywords, p.2 ≠ TokenType.Identifier := by decide
      exact hall (text, t) hmem
    simp [ht]

/-! ### C7: visibility modifiers in declarations. -/

/-- Visibility recorded on a parsed declaration node, if any. -/
def stmtVis (stmt : Stmt) : Option Visibility :=
  match stmt with
  | .funcDef _ _ _ v => some v
  | .classS _ _ v => some v
  | _ => none

theorem pPrev_pAdvance (st : PSt) (h : pAtEnd st = false) :
    pPrev (pAdvance st) = pPeek st := by
  simp [pAdvance, pPrev, pPeek, h]

theorem pCheck_elim (t : TokenType) (st : PSt) (h : pCheck t st = true) :
    pAtEnd st = false ∧ (pPeek st).type = t := by
  rw [pCheck] at h
  split at h
  · cases h
  · rename_i hend
    exact ⟨by simpa using hend, by simpa using h⟩

/-- `functionDeclaration` tags its node with exactly the visibility it was
called with. -/
theorem functionDeclaration_vis (fuel : Nat) (vis : Visibility) (st : PSt)
    (stmt : Stmt) (st' : PSt)
    (h : functionDeclaration fuel vis st = .ok (stmt, st')) :
    stmtVis stmt = some vis := by
  match fuel with
  | 0 => simp [functionDeclaration] at h
  | fuel + 1 =>
    rw [functionDeclaration] at h
    repeat'
      first
      | exact Except.noConfusion h
      | split at h
    cases h
    rfl

/-- `classDeclaration` tags its node with exactly the visibility it was
called with. -/
theorem classDeclaration_vis (fuel : Nat) (vis : Visibility) (st : PSt)
    (stmt : Stmt) (st' : PSt)
    (h : classDeclaration fuel vis st = .ok (stmt, st')) :
    stmtVis stmt = some vis := by
  match fuel with
  | 0 => simp [classDeclaration] at h
  | fuel + 1 =>
    rw [classDeclaration] at h
    repeat'
      first
      | exact Except.noConfusion h
      | split at h
    cases h
    rfl

/-- C7 (amended): an `open` modifier not followed by `def`/`class` is a
parse error for that declaration; an explicit `closed` modifier in the same
position is NOT rejected — it is consumed and the remainder is parsed as an
ordinary statement; and a def or class declaration written without a
modifier gets visibility `Closed`. -/
theorem open_without_def_or_class_is_parse_error :
    (∀ (fuel : Nat) (st : PSt), pCheck .Open st = true →
      (pPeek (pAdvance st)).type ≠ .Def →
      (pPeek (pAdvance st)).type ≠ .Class →
      declaration (fuel + 1) st =
        .error (pErr (pPeek st)
          "\x27open\x27 must be followed by \x27def\x27 or \x27class\x27.")) ∧
    (∀ (fuel : Nat) (st : PSt), pCheck .Closed st = true →
      (pPeek (pAdvance st)).type ≠ .Def →
      (pPeek (pAdvance st)).type ≠ .Class →
      declaration (fuel + 1) st = statement fuel (pAdvance st)) ∧
    (∀ (fuel : Nat) (st : PSt) (stmt : Stmt) (st' : PSt),
      pCheck .Def st = true →
      declaration (fuel + 1) st = .ok (stmt, st') →
      stmtVis stmt = some .Closed) ∧
    (∀ (fuel : Nat) (st : PSt) (stmt : Stmt) (st' : PSt),
      pCheck .Class st = true →
      declaration (fuel + 1) st = .ok (stmt, st') →
      stmtVis stmt = some .Closed) := by
  refine ⟨?_, ?_, ?_, ?_⟩
  · intro fuel st hopen hdef hclass
    obtain ⟨hend, hpk⟩ := pCheck_elim _ _ hopen
    simp [declaration, pMatch, pCheck, hend, hpk, hdef, hclass,
          pPrev_pAdvance st hend]
  · intro fuel st hclosed hdef hclass
    obtain ⟨hend, hpk⟩ := pCheck_elim _ _ hclosed
    simp [declaration, pMatch, pCheck, hend, hpk, hdef, hclass]
  · intro fuel st stmt st' hdef h
    obtain ⟨hend, hpk⟩ := pCheck_elim _ _ hdef
    rw [show declaration (fuel + 1) st = functionDeclaration fuel .Closed (pAdvance st) by
          simp [declaration, pMatch, pCheck, hend, hpk]] at h
    exact functionDeclaration_vis fuel .Closed (pAdvance st) stmt st' h
  · intro fuel st stmt st' hcls h
    obtain ⟨hend, hpk⟩ := pCheck_elim _ _ hcls
    rw [show declaration (fuel + 1) st = classDeclaration fuel .Closed (pAdvance st) by
          simp [declaration, pMatch, pCheck, hend, hpk]] at h
    exact classDeclaration_vis fuel .Closed (pAdvance st) stmt st' h

/-- C7, counterexample to the claim as stated: the token stream
`closed print ( 1 ) ;` — a `closed` visibility modifier not followed by
`def` or `class` — parses without error into an ordinary print statement
(only `open` is rejected in that position). -/
theorem closed_without_def_or_class_parses :
    declaration 32
        ⟨[⟨.Closed, "closed", 1⟩, ⟨.Print, "print", 1⟩, ⟨.LeftParen, "(", 1⟩,
          ⟨.Number, "1", 1⟩, ⟨.RightParen, ")", 1⟩, ⟨.Semicolon, ";", 1⟩,
          ⟨.Eof, "", 1⟩], 0⟩ =
      .ok (.print (.literal { kind := .Number, numberValue := 1 }),
        ⟨[⟨.Closed, "closed", 1⟩, ⟨.Print, "print", 1⟩, ⟨.LeftParen, "(", 1⟩,
          ⟨.Number, "1", 1⟩, ⟨.RightParen, ")", 1⟩, ⟨.Semicolon, ";", 1⟩,
          ⟨.Eof, "", 1⟩], 6⟩) := by
  rfl

/-! ### Concrete witnesses. -/

set_option maxHeartbeats 2000000 in
/-- Witness for C5 at `a = 1; b = 2; a <-> b`. -/
theorem swap_exchanges_values_witness :
    execute 5 (.swap ⟨.Identifier, "a", 1⟩ ⟨.Identifier, "b", 1⟩) 0
        { frames := [⟨[("a", .num 1), ("b", .num 2)], none⟩] } =
      .ok () { frames := [⟨[("a", .num 2), ("b", .num 1)], none⟩] } ∧
    envGet { frames := [⟨[("a", .num 2), ("b", .num 1)], none⟩] } 1 0
        ⟨.Identifier, "a", 1⟩ = some (.ok (.num 2)) ∧
    envGet { frames := [⟨[("a", .num 2), ("b", .num 1)], none⟩] } 1 0
        ⟨.Identifier, "b", 1⟩ = some (.ok (.num 1)) := by
  obtain ⟨s', hrun, hlen, hxa, hxb⟩ :=
    swap_exchanges_values 4 { frames := [⟨[("a", .num 1), ("b", .num 2)], none⟩] }
      0 ⟨.Identifier, "a", 1⟩ ⟨.Identifier, "b", 1⟩ (.num 1) (.num 2)
      (by rfl) (by rfl)
  have hconc : execute 5 (.swap ⟨.Identifier, "a", 1⟩ ⟨.Identifier, "b", 1⟩) 0
      { frames := [⟨[("a", .num 1), ("b", .num 2)], none⟩] } =
      .ok () { frames := [⟨[("a", .num 2), ("b", .num 1)], none⟩] } := by rfl
  rw [hconc] at hrun
  injection hrun with _ hs'
  subst hs'
  exact ⟨hconc, hxa, hxb⟩

set_option maxHeartbeats 2000000 in
/-- Witness for C10: `5 or (1/0)` yields 5 without evaluating the division;
`false and (1/0)` yields false; `nil or 7` yields 7. -/
theorem or_and_yield_operand_values_witness :
    evaluate 6 (.binary (.literal { kind := .Number, numberValue := 5 })
        ⟨.Or, "or", 1⟩
        (.binary (.literal { kind := .Number, numberValue := 1 }) ⟨.Slash, "/", 1⟩
          (.literal { kind := .Number, numberValue := 0 }))) 0 {} =
      .ok (.num 5) {} ∧
    evaluate 6 (.binary (.literal { kind := .Bool, boolValue := false })
        ⟨.And, "and", 1⟩
        (.binary (.literal { kind := .Number, numberValue := 1 }) ⟨.Slash, "/", 1⟩
          (.literal { kind := .Number, numberValue := 0 }))) 0 {} =
      .ok (.bool false) {} ∧
    evaluate 6 (.binary (.literal { kind := .Nil }) ⟨.Or, "or", 1⟩
        (.literal { kind := .Number, numberValue := 7 })) 0 {} =
      .ok (.num 7) {} := by
  refine ⟨?_, ?_, ?_⟩
  · exact ((or_and_yield_operand_values 5 _ _ ⟨.Or, "or", 1⟩ 0 {} (.num 5) {}
      (by rfl)).1 rfl).1 rfl
  · exact ((or_and_yield_operand_values 5 _ _ ⟨.And, "and", 1⟩ 0 {} (.bool false) {}
      (by rfl)).2 rfl).1 rfl
  · exact (((or_and_yield_operand_values 5 _ _ ⟨.Or, "or", 1⟩ 0 {} .nil {}
      (by rfl)).1 rfl).2 rfl).trans (by rfl)

set_option maxHeartbeats 4000000 in
/-- Witness for C2 at `maybe { 1/0 } otherwise { print("caught") }` and
`maybe { 1/0 }`: the division-by-zero error is caught, the otherwise block
runs exactly once printing "caught", and without it execution continues
silently. -/
theorem maybe_catches_any_runtime_error_witness :
    execute 9 (.maybe
        [.exprStmt (.binary (.literal { kind := .Number, numberValue := 1 })
          ⟨.Slash, "/", 1⟩ (.literal { kind := .Number, numberValue := 0 }))]
        (some [.print (.literal { kind := .String, stringValue := "caught" })]))
        0 {} =
      executeBlock 8 [.print (.literal { kind := .String, stringValue := "caught" })]
        2 { frames := [⟨[], none⟩, ⟨[], some 0⟩, ⟨[], some 0⟩] } ∧
    execute 9 (.maybe
        [.exprStmt (.binary (.literal { kind := .Number, numberValue := 1 })
          ⟨.Slash, "/", 1⟩ (.literal { kind := .Number, numberValue := 0 }))]
        none) 0 {} =
      .ok () { frames := [⟨[], none⟩, ⟨[], some 0⟩] } ∧
    executeBlock 8 [.print (.literal { kind := .String, stringValue := "caught" })]
        2 { frames := [⟨[], none⟩, ⟨[], some 0⟩, ⟨[], some 0⟩] } =
      .ok () { frames := [⟨[], none⟩, ⟨[], some 0⟩, ⟨[], some 0⟩],
               output := ["caught"] } := by
  have h := (maybe_catches_any_runtime_error 8
    [.exprStmt (.binary (.literal { kind := .Number, numberValue := 1 })
      ⟨.Slash, "/", 1⟩ (.literal { kind := .Number, numberValue := 0 }))]
    0 {}).1 "Runtime error: division by zero."
    { frames := [⟨[], none⟩, ⟨[], some 0⟩] } (by rfl)
  exact ⟨h.1 _, h.2, by rfl⟩

set_option maxHeartbeats 4000000 in
/-- Witness for C8: a return inside a maybe try block passes through the
maybe statement (the otherwise block does not run), is converted to the
call's result at a function boundary, and is the fatal error at top
level. -/
theorem return_passes_through_maybe_witness :
    execute 9 (.maybe
        [.ret ⟨.Return, "return", 1⟩
          (some (.literal { kind := .Number, numberValue := 42 }))]
        (some [.print (.literal { kind := .String, stringValue := "no" })]))
        0 {} =
      .exc (.ret (.num 42)) { frames := [⟨[], none⟩, ⟨[], some 0⟩] } ∧
    ({ frames := [⟨[], none⟩, ⟨[], some 0⟩] } : State).output = [] ∧
    callFunction 9 (.fn 0) []
        { fns := [⟨⟨.Identifier, "f", 1⟩, [],
            [.ret ⟨.Return, "return", 1⟩
              (some (.literal { kind := .Number, numberValue := 42 }))], 0⟩] } =
      .ok (.num 42)
        { frames := [⟨[], none⟩, ⟨[], some 0⟩],
          fns := [⟨⟨.Identifier, "f", 1⟩, [],
            [.ret ⟨.Return, "return", 1⟩
              (some (.literal { kind := .Number, numberValue := 42 }))], 0⟩] } ∧
    run 10 [.ret ⟨.Return, "return", 1⟩
        (some (.literal { kind := .Number, numberValue := 42 }))] 0 {} =
      .exc (.rte "Return used outside of a function.") {} := by
  refine ⟨?_, rfl, ?_, ?_⟩
  · exact (return_passes_through_maybe 8).1 _ _ 0 {} (.num 42)
      { frames := [⟨[], none⟩, ⟨[], some 0⟩] } (by rfl)
  · exact (return_passes_through_maybe 8).2.1 0 [] _
      ⟨⟨.Identifier, "f", 1⟩, [],
        [.ret ⟨.Return, "return", 1⟩
          (some (.literal { kind := .Number, numberValue := 42 }))], 0⟩
      (.num 42) _ (by rfl) (by rfl) (by rfl)
  · exact (return_passes_through_maybe 10).2.2 _ 0 {} (.num 42) {} (by rfl)

set_option maxHeartbeats 4000000 in
/-- Witness for C9: with `a = [10, 20]`, index `1.9` truncates to 1 and
reads 20 (no error); `a[1.9] = 99` writes position 1. -/
theorem list_index_truncates_witness :
    evaluate 4 (.index (.variableE ⟨.Identifier, "a", 1⟩) ⟨.LeftBracket, "[", 1⟩
        (.literal { kind := .Number, numberValue := mkRat 19 10 })) 0
        { frames := [⟨[("a", .list 0)], none⟩], lists := [[.num 10, .num 20]] } =
      .ok (.num 20)
        { frames := [⟨[("a", .list 0)], none⟩], lists := [[.num 10, .num 20]] } ∧
    evaluate 4 (.indexSet (.variableE ⟨.Identifier, "a", 1⟩) ⟨.LeftBracket, "[", 1⟩
        (.literal { kind := .Number, numberValue := mkRat 19 10 })
        (.literal { kind := .Number, numberValue := 99 })) 0
        { frames := [⟨[("a", .list 0)], none⟩], lists := [[.num 10, .num 20]] } =
      .ok (.num 99)
        { frames := [⟨[("a", .list 0)], none⟩], lists := [[.num 10, .num 99]] } ∧
    evaluate 4 (.index (.variableE ⟨.Identifier, "a", 1⟩) ⟨.LeftBracket, "[", 1⟩
        (.literal { kind := .Number, numberValue := 2 })) 0
        { frames := [⟨[("a", .list 0)], none⟩], lists := [[.num 10, .num 20]] } =
      .exc (.rte "List index out of bounds.")
        { frames := [⟨[("a", .list 0)], none⟩], lists := [[.num 10, .num 20]] } := by
  have h := list_index_truncates_then_bounds_checks 3
    (.variableE ⟨.Identifier, "a", 1⟩)
    (.literal { kind := .Number, numberValue := mkRat 19 10 })
    (.literal { kind := .Number, numberValue := 99 })
    ⟨.LeftBracket, "[", 1⟩ 0
    { frames := [⟨[("a", .list 0)], none⟩], lists := [[.num 10, .num 20]] }
    { frames := [⟨[("a", .list 0)], none⟩], lists := [[.num 10, .num 20]] }
    { frames := [⟨[("a", .list 0)], none⟩], lists := [[.num 10, .num 20]] }
    0 (mkRat 19 10) (by rfl) (by rfl)
  have h2 := list_index_truncates_then_bounds_checks 3
    (.variableE ⟨.Identifier, "a", 1⟩)
    (.literal { kind := .Number, numberValue := 2 })
    (.literal { kind := .Number, numberValue := 99 })
    ⟨.LeftBracket, "[", 1⟩ 0
    { frames := [⟨[("a", .list 0)], none⟩], lists := [[.num 10, .num 20]] }
    { frames := [⟨[("a", .list 0)], none⟩], lists := [[.num 10, .num 20]] }
    { frames := [⟨[("a", .list 0)], none⟩], lists := [[.num 10, .num 20]] }
    0 2 (by rfl) (by rfl)
  refine ⟨h.1.trans (by rfl), (h.2 (.num 99) _ (by rfl)).trans (by rfl),
          h2.1.trans (by rfl)⟩

set_option maxHeartbeats 4000000 in
/-- Witness for C1: a class whose `init(x)` body is `return 42`, called
with one argument, still yields the freshly created Instance, not 42. -/
theorem class_call_yields_new_instance_witness :
    callFunction 9 (.cls 0) [.num 7]
        { classes := [⟨"C", [("init", 0)]⟩],
          fns := [⟨⟨.Identifier, "init", 1⟩, [⟨.Identifier, "x", 1⟩],
            [.ret ⟨.Return, "return", 1⟩
              (some (.literal { kind := .Number, numberValue := 42 }))], 0⟩] } =
      .ok (.inst 0)
        { frames := [⟨[], none⟩, ⟨[("this", .inst 0), ("x", .num 7)], some 0⟩],
          classes := [⟨"C", [("init", 0)]⟩],
          fns := [⟨⟨.Identifier, "init", 1⟩, [⟨.Identifier, "x", 1⟩],
            [.ret ⟨.Return, "return", 1⟩
              (some (.literal { kind := .Number, numberValue := 42 }))], 0⟩],
          insts := [⟨0, []⟩] } ∧
    callFunction 9 (.cls 0) [] { classes := [⟨"D", []⟩] } =
      .ok (.inst 0) { classes := [⟨"D", []⟩], insts := [⟨0, []⟩] } := by
  constructor
  · exact ((class_call_yields_new_instance 8
      { classes := [⟨"C", [("init", 0)]⟩],
        fns := [⟨⟨.Identifier, "init", 1⟩, [⟨.Identifier, "x", 1⟩],
          [.ret ⟨.Return, "return", 1⟩
            (some (.literal { kind := .Number, numberValue := 42 }))], 0⟩] }
      0 [.num 7]).2 0
      ⟨⟨.Identifier, "init", 1⟩, [⟨.Identifier, "x", 1⟩],
        [.ret ⟨.Return, "return", 1⟩
          (some (.literal { kind := .Number, numberValue := 42 }))], 0⟩
      (by rfl) (by rfl)).2 (by rfl) |>.2 (.num 42) _ (by rfl)
  · exact ((class_call_yields_new_instance 8 { classes := [⟨"D", []⟩] }
      0 []).1 (by rfl)).1 rfl

set_option maxHeartbeats 4000000 in
/-- Witness for C3: after one successful load of `@std.m` (an empty module
file under the `std` root), the export map is cached; a second `loadModule`
and a `use @std.m as m2` statement both return the cached map with the
state otherwise untouched — the module body is not re-run. -/
theorem module_body_runs_at_most_once_witness :
    loadModule 20 "@std.m"
        { stdlibRoot := "std", fsExists := ["std/m.lu"],
          fsRead := [("std/m.lu", "")] } =
      .ok 0
        { frames := [⟨[], none⟩, ⟨[], some 0⟩], maps := [[]],
          moduleCache := [("@std.m", 0)], moduleAstCache := [("@std.m", [])],
          stdlibRoot := "std", fsExists := ["std/m.lu"],
          fsRead := [("std/m.lu", "")] } ∧
    loadModule 6 "@std.m"
        { frames := [⟨[], none⟩, ⟨[], some 0⟩], maps := [[]],
          moduleCache := [("@std.m", 0)], moduleAstCache := [("@std.m", [])],
          stdlibRoot := "std", fsExists := ["std/m.lu"],
          fsRead := [("std/m.lu", "")] } =
      .ok 0
        { frames := [⟨[], none⟩, ⟨[], some 0⟩], maps := [[]],
          moduleCache := [("@std.m", 0)], moduleAstCache := [("@std.m", [])],
          stdlibRoot := "std", fsExists := ["std/m.lu"],
          fsRead := [("std/m.lu", "")] } ∧
    execute 7 (.use [⟨.At, "@", 1⟩, ⟨.Identifier, "std", 1⟩, ⟨.Dot, ".", 1⟩,
        ⟨.Identifier, "m", 1⟩] ⟨.Identifier, "m2", 1⟩) 0
        { frames := [⟨[], none⟩, ⟨[], some 0⟩], maps := [[]],
          moduleCache := [("@std.m", 0)], moduleAstCache := [("@std.m", [])],
          stdlibRoot := "std", fsExists := ["std/m.lu"],
          fsRead := [("std/m.lu", "")] } =
      .ok ()
        (envDefine
          { frames := [⟨[], none⟩, ⟨[], some 0⟩], maps := [[]],
            moduleCache := [("@std.m", 0)], moduleAstCache := [("@std.m", [])],
            stdlibRoot := "std", fsExists := ["std/m.lu"],
            fsRead := [("std/m.lu", "")] } 0 "m2" (.map 0)) := by
  refine ⟨by rfl, ?_, ?_⟩
  · exact module_body_runs_at_most_once.2.2.1 20 5 "@std.m" 0
      { stdlibRoot := "std", fsExists := ["std/m.lu"],
        fsRead := [("std/m.lu", "")] } _ (by rfl)
  · exact module_body_runs_at_most_once.2.2.2 5
      [⟨.At, "@", 1⟩, ⟨.Identifier, "std", 1⟩, ⟨.Dot, ".", 1⟩,
       ⟨.Identifier, "m", 1⟩] ⟨.Identifier, "m2", 1⟩ 0 _ 0 (by rfl)

set_option maxHeartbeats 2000000 in
/-- Witness for C7 (amended): `open x` is a parse error naming the `open`
token; `closed print(1);` parses as a statement; `def f() {}` gets
visibility `Closed`. -/
theorem open_without_def_or_class_is_parse_error_witness :
    declaration 11
        ⟨[⟨.Open, "open", 1⟩, ⟨.Identifier, "x", 1⟩, ⟨.Eof, "", 1⟩], 0⟩ =
      .error (pErr ⟨.Open, "open", 1⟩
        "\x27open\x27 must be followed by \x27def\x27 or \x27class\x27.") ∧
    declaration 11
        ⟨[⟨.Closed, "closed", 1⟩, ⟨.Print, "print", 1⟩, ⟨.LeftParen, "(", 1⟩,
          ⟨.Number, "1", 1⟩, ⟨.RightParen, ")", 1⟩, ⟨.Semicolon, ";", 1⟩,
          ⟨.Eof, "", 1⟩], 0⟩ =
      statement 10
        ⟨[⟨.Closed, "closed", 1⟩, ⟨.Print, "print", 1⟩, ⟨.LeftParen, "(", 1⟩,
          ⟨.Number, "1", 1⟩, ⟨.RightParen, ")", 1⟩, ⟨.Semicolon, ";", 1⟩,
          ⟨.Eof, "", 1⟩], 1⟩ ∧
    stmtVis (.funcDef ⟨.Identifier, "f", 1⟩ [] [] .Closed) = some .Closed := by
  refine ⟨?_, ?_, ?_⟩
  · exact open_without_def_or_class_is_parse_error.1 10
      ⟨[⟨.Open, "open", 1⟩, ⟨.Identifier, "x", 1⟩, ⟨.Eof, "", 1⟩], 0⟩
      (by rfl) (by decide) (by decide)
  · exact open_without_def_or_class_is_parse_error.2.1 10
      ⟨[⟨.Closed, "closed", 1⟩, ⟨.Print, "print", 1⟩, ⟨.LeftParen, "(", 1⟩,
        ⟨.Number, "1", 1⟩, ⟨.RightParen, ")", 1⟩, ⟨.Semicolon, ";", 1⟩,
        ⟨.Eof, "", 1⟩], 0⟩ (by rfl) (by decide) (by decide)
  · exact open_without_def_or_class_is_parse_error.2.2.1 10
      ⟨[⟨.Def, "def", 1⟩, ⟨.Identifier, "f", 1⟩, ⟨.LeftParen, "(", 1⟩,
        ⟨.RightParen, ")", 1⟩, ⟨.LeftBrace, "\x7b", 1⟩, ⟨.RightBrace, "\x7d", 1⟩,
        ⟨.Eof, "", 1⟩], 0⟩
      (.funcDef ⟨.Identifier, "f", 1⟩ [] [] .Closed)
      ⟨[⟨.Def, "def", 1⟩, ⟨.Identifier, "f", 1⟩, ⟨.LeftParen, "(", 1⟩,
        ⟨.RightParen, ")", 1⟩, ⟨.LeftBrace, "\x7b", 1⟩, ⟨.RightBrace, "\x7d", 1⟩,
        ⟨.Eof, "", 1⟩], 6⟩
      (by rfl) (by rfl)

end Luma
